import Mathlib

/-!
A shallow embedding of the conversation state machine, validators, record
listing and rankings calculator of `src/app.py` (a Telegram "vibes" data
collection bot).

Modelling conventions:
* Sheet rows (as returned by the Sheets `values` API) are `List String`.
* JSON values written to the store are `CellValue` (`str`, `int`, or `null`
  for Python `None`), so that the type of a written cell is observable.
* Each Telegram handler becomes a pure function returning a `HandlerOut`:
  the Python-level result (normal return of the next conversation state and
  the mutated `user_data`, or an escaped exception together with the
  `user_data` as it stood when the exception was raised), the list of
  mutating store calls attempted (in order), and the chat replies sent.
* Store I/O is modelled by `StoreCfg`: the sheet contents returned by
  `get_all_values`, and success flags for each mutating endpoint.
* Python `float` arithmetic in the rankings calculator is modelled by exact
  rationals; `"%.2f"` formatting is modelled as round-half-to-even.
* Python's `datetime.strptime(s, "%d/%m/%Y")` is modelled faithfully:
  day and month accept one or two digits, the year exactly four digits, the
  whole string must be consumed, and the result must be a real Gregorian
  calendar date with year at least 1.
-/

namespace VibesBot

/-- A JSON-level cell value sent to the Sheets API. -/
inductive CellValue where
  | str (s : String)
  | int (n : Int)
  | null
deriving DecidableEq, Repr

/-- A mutating store call (`append_row`, `update_cell`, `delete_row`). -/
inductive StoreOp where
  | append (values : List CellValue)
  | updateCell (row col : Nat) (value : CellValue)
  | clearRow (row : Nat)
deriving DecidableEq, Repr

/-- The `context.user_data["vibe_data"]` dict built up by the Create flow. -/
structure VibeData where
  name : Option String := Option.none
  date : Option String := Option.none
  food : Option Int := Option.none
  place : Option Int := Option.none
  spaciousness : Option Int := Option.none
  convo : Option Int := Option.none
  vibe : Option String := Option.none
deriving DecidableEq, Repr

/-- A `mapping[choice]` entry of `list_records_formatted`:
`{"index": sheet_index, "data": row}`. -/
structure RecordRef where
  index : Nat
  data : List String
deriving DecidableEq, Repr

/-- The per-user `context.user_data` dict. -/
structure UserData where
  vibe_data : Option VibeData := Option.none
  record_list_edit : List (Nat × RecordRef) := []
  record_list_delete : List (Nat × RecordRef) := []
  selected_record_edit : Option RecordRef := Option.none
  selected_record_delete : Option RecordRef := Option.none
  field_to_edit : Option String := Option.none
  new_value : Option String := Option.none
deriving DecidableEq, Repr

/-- `context.user_data.clear()` leaves the empty dict. -/
def emptyUD : UserData := {}

/-- The conversation states of the `ConversationHandler`, plus `END`
(`ConversationHandler.END`, i.e. no active conversation). -/
inductive ConvState where
  | ASK_PASSWORD | ASK_NAME | ASK_DATE | ASK_FOOD | ASK_PLACE | ASK_SPACIOUSNESS
  | ASK_CONVO | ASK_VIBE | CONFIRM
  | SELECT_RECORD_EDIT | SHOW_CURRENT_DATA | ASK_NEW_VALUE | CONFIRM_EDIT
  | SELECT_RECORD_DELETE | CONFIRM_DELETE
  | END
deriving DecidableEq, Repr

/-- Result of running one Python handler: either a normal return carrying the
next conversation state and the `user_data` after the handler's mutations, or
an exception that escaped the handler, carrying the `user_data` as mutated up
to the raise point (the dict outlives the exception). -/
inductive PyResult where
  | ok (st : ConvState) (ud : UserData)
  | exn (msg : String) (ud : UserData)
deriving DecidableEq, Repr

/-- One handler invocation: Python-level result, the mutating store calls
attempted (in order, a failing call included), and the replies sent. -/
structure HandlerOut where
  res : PyResult
  ops : List StoreOp := []
  replies : List String := []
deriving DecidableEq, Repr

/-- External-store behaviour: the rows `get_all_values` returns, and whether
each endpoint responds with HTTP 200. -/
structure StoreCfg where
  sheet : List (List String)
  fetchOk : Bool := true
  appendOk : Bool := true
  updateOk : Bool := true
  clearOk : Bool := true

/-- One inbound Telegram update, as consumed by the dispatcher: a plain text
message, a `/command`, or an inline-button callback payload. -/
inductive Input where
  | msg (text : String)
  | cmd (name : String)
  | callback (data : String)
deriving DecidableEq, Repr

/-! ## Python string and int primitives -/

/-- ASCII whitespace as stripped by Python `str.strip()` / `int()`. -/
def pyWs (c : Char) : Bool :=
  c = ' ' || c = '\t' || c = '\n' || c = '\r' || c = '\x0b' || c = '\x0c'

/-- Python `str.strip()` (ASCII whitespace). -/
def pyStrip (s : String) : String :=
  ⟨((s.toList.dropWhile pyWs).reverse.dropWhile pyWs).reverse⟩

/-- Python `str.lower()`, per-character lowercasing (all inputs compared
against after lowering here are ASCII). -/
def pyLower (s : String) : String := ⟨s.toList.map Char.toLower⟩

/-- Digit runs accepted by Python `int()`: nonempty digits, optionally with
single underscores between digits. -/
def digitsU : List Char → Bool
  | [] => false
  | [c] => c.isDigit
  | c :: '_' :: rest => c.isDigit && digitsU rest
  | c :: rest => c.isDigit && digitsU rest

/-- Numeric value of a digit run (underscores ignored). -/
def digitsVal (cs : List Char) : Nat :=
  cs.foldl (fun acc c => if c = '_' then acc else acc * 10 + (c.toNat - 48)) 0

/-- Python `int(s)` on a decimal string: `some n` on success, `none` when a
`ValueError` is raised. -/
def pyInt? (s : String) : Option Int :=
  match (pyStrip s).toList with
  | '+' :: rest => if digitsU rest then some ((digitsVal rest : Int)) else Option.none
  | '-' :: rest => if digitsU rest then some (-(digitsVal rest : Int)) else Option.none
  | rest => if digitsU rest then some ((digitsVal rest : Int)) else Option.none

/-! ## Dates -/

/-- Gregorian leap year. -/
def isLeap (y : Nat) : Bool :=
  (y % 4 = 0 && y % 100 ≠ 0) || y % 400 = 0

/-- Number of days of month `m` of year `y`. -/
def daysInMonth (m y : Nat) : Nat :=
  if m = 2 then (if isLeap y then 29 else 28)
  else if m = 4 || m = 6 || m = 9 || m = 11 then 30
  else 31

/-- `datetime.strptime(s, "%d/%m/%Y")`: one or two digits for day and month,
exactly four digits for year, nothing left over, and the triple must be a
valid calendar date (`datetime` also requires year ≥ 1). Returns
`some (day, month, year)`, or `none` when `ValueError` is raised. -/
def strptimeDMY (s : String) : Option (Nat × Nat × Nat) :=
  let cs := s.toList
  let dcs := cs.takeWhile Char.isDigit
  match cs.dropWhile Char.isDigit with
  | '/' :: r2 =>
    let mcs := r2.takeWhile Char.isDigit
    match r2.dropWhile Char.isDigit with
    | '/' :: r4 =>
      let ycs := r4.takeWhile Char.isDigit
      if r4.dropWhile Char.isDigit = [] &&
         (dcs.length = 1 || dcs.length = 2) &&
         (mcs.length = 1 || mcs.length = 2) && ycs.length = 4 then
        let d := digitsVal dcs
        let m := digitsVal mcs
        let y := digitsVal ycs
        if 1 ≤ d && d ≤ 31 && 1 ≤ m && m ≤ 12 && 1 ≤ y && d ≤ daysInMonth m y then
          some (d, m, y)
        else Option.none
      else Option.none
    | _ => Option.none
  | _ => Option.none

/-- `is_valid_date` of `src/app.py`: `strptime` succeeds. -/
def is_valid_date (s : String) : Bool :=
  (strptimeDMY s).isSome

/-- Exact `\d\d/\d\d/\d\d\d\d` character shape. -/
def ddShape (cs : List Char) : Bool :=
  match cs with
  | [a, b, s1, c, d, s2, e, f, g, h] =>
    a.isDigit && b.isDigit && s1 = '/' && c.isDigit && d.isDigit && s2 = '/' &&
    e.isDigit && f.isDigit && g.isDigit && h.isDigit
  | _ => false

/-- Python `re.match(r"^\d{2}/\d{2}/\d{4}$", s)` as a boolean: the `$` anchor
also matches just before one trailing newline. -/
def pyDateRegex (s : String) : Bool :=
  ddShape s.toList ||
  (match s.toList.reverse with
   | '\n' :: rest => ddShape rest.reverse
   | _ => false)

/-- Sort key of a parsed `(day, month, year)`: `datetime` objects compare
lexicographically by `(year, month, day)`. -/
def dateKey : Nat × Nat × Nat → Nat
  | (d, m, y) => y * 10000 + m * 100 + d

/-! ## `list_records_formatted` -/

/-- A `(sheet_index, row, parsed date)` triple of `list_records_formatted`. -/
structure ValidRec where
  index : Nat
  row : List String
  key : Nat
deriving DecidableEq, Repr

/-- `datetime.strptime(row[1], "%d/%m/%Y")` inside the `try`: an `IndexError`
on a too-short row is caught by the same `except` and also skips the row. -/
def rowDate? (row : List String) : Option (Nat × Nat × Nat) :=
  match row[1]? with
  | some s => strptimeDMY s
  | none => Option.none

/-- The filtering loop `for sheet_index, row in enumerate(records, start=2)`,
keeping rows whose date parses. -/
def validRecordsAux : Nat → List (List String) → List ValidRec
  | _, [] => []
  | i, row :: rest =>
    match rowDate? row with
    | some dmy => ⟨i, row, dateKey dmy⟩ :: validRecordsAux (i + 1) rest
    | none => validRecordsAux (i + 1) rest

/-- `valid_records` before sorting: data rows (header skipped) enumerated
from sheet index 2. -/
def validRecords (data : List (List String)) : List ValidRec :=
  validRecordsAux 2 (data.drop 1)

/-- `valid_records.sort(key=lambda x: x[2], reverse=True)`: stable sort,
most recent date first. A stable sort's output is determined by the key
order, so insertion sort models CPython's stable sort exactly. -/
def sortRecords (l : List ValidRec) : List ValidRec :=
  l.insertionSort (fun a b => b.key ≤ a.key)

/-- One line of the listing (note the source lists `row[3]` third and labels
`row[2]` as Food). -/
def recordLine (counter : Nat) (row : List String) : String :=
  toString counter ++ ". " ++ row.getD 0 "" ++ " | " ++ row.getD 1 "" ++ " | " ++
  row.getD 3 "" ++ " | " ++ "Food: " ++ row.getD 2 "" ++ ", Spaciousness: " ++
  row.getD 4 "" ++ ", Convo: " ++ row.getD 5 "" ++ ", Vibe: " ++ row.getD 6 ""

/-- `list_records_formatted`. The rendering loop subscripts `row[0]`…`row[6]`;
a kept row with fewer than seven cells therefore raises `IndexError` and the
call returns nothing. -/
def list_records_formatted (data : List (List String)) :
    Except String (String × List (Nat × RecordRef)) :=
  let sorted := sortRecords (validRecords data)
  if sorted.isEmpty then Except.ok ("No records found.", [])
  else if sorted.all (fun r => decide (7 ≤ r.row.length)) then
    Except.ok
      (String.intercalate "\n" (sorted.enum.map (fun p => recordLine (p.1 + 1) p.2.row)),
       sorted.enum.map (fun p => (p.1 + 1, (⟨p.2.index, p.2.row⟩ : RecordRef))))
  else Except.error "IndexError"

/-! ## Message texts -/

def WELCOME_TEXT : String :=
  "Welcome to GoodVibesBot! 🎉\n" ++
  "This bot helps you track and analyze vibes from different places.\n\n" ++
  "Please enter the password to proceed."

def INVALID_DATE_MSG : String := "Invalid format or date. Please use DD/MM/YYYY:"

/-- Python `str(x)` of an optional string field, `data.get(k, "")`. -/
def showOptS (o : Option String) : String := o.getD ""

/-- Python `str(x)` of an optional int field, `data.get(k, "")`. -/
def showOptI (o : Option Int) : String :=
  match o with
  | some n => toString n
  | none => ""

/-- JSON value of `data.get(k)` for a string field (`None` becomes `null`). -/
def cellS (o : Option String) : CellValue :=
  match o with
  | some s => CellValue.str s
  | none => CellValue.null

/-- JSON value of `data.get(k)` for an int field. -/
def cellI (o : Option Int) : CellValue :=
  match o with
  | some n => CellValue.int n
  | none => CellValue.null

/-- Python `str.capitalize()`. -/
def pyCapitalize (s : String) : String :=
  match s.toList with
  | [] => ""
  | c :: rest => ⟨c.toUpper :: rest.map Char.toLower⟩

/-! ## Create sub-flow handlers -/

def start_handler (ud : UserData) : HandlerOut :=
  ⟨PyResult.ok ConvState.ASK_PASSWORD ud, [], [WELCOME_TEXT]⟩

def ask_password_handler (ud : UserData) (text : String) : HandlerOut :=
  if text = "vibes" then
    ⟨PyResult.ok ConvState.END ud, [], ["Access granted! What would you like to do?"]⟩
  else
    ⟨PyResult.ok ConvState.ASK_PASSWORD ud, [], ["Incorrect password. Please try again."]⟩

def ask_name_handler (ud : UserData) (text : String) : HandlerOut :=
  ⟨PyResult.ok ConvState.ASK_DATE { ud with vibe_data := some { name := some text } },
   [], ["Enter the date (DD/MM/YYYY):"]⟩

def ask_date_handler (ud : UserData) (text : String) : HandlerOut :=
  if !(pyDateRegex text) || !(is_valid_date text) then
    ⟨PyResult.ok ConvState.ASK_DATE ud, [], [INVALID_DATE_MSG]⟩
  else
    match ud.vibe_data with
    | none => ⟨PyResult.exn "KeyError" ud, [], []⟩
    | some d =>
      ⟨PyResult.ok ConvState.ASK_FOOD { ud with vibe_data := some { d with date := some text } },
       [], ["Score for Food (1-5):"]⟩

def ask_food_handler (ud : UserData) (payload : String) : HandlerOut :=
  match pyInt? payload with
  | none => ⟨PyResult.ok ConvState.ASK_FOOD ud, [], ["Invalid input for food score. Please try again:"]⟩
  | some n =>
    match ud.vibe_data with
    | none => ⟨PyResult.exn "KeyError" ud, [], []⟩
    | some d =>
      ⟨PyResult.ok ConvState.ASK_PLACE { ud with vibe_data := some { d with food := some n } },
       [], ["Score for Place (1-5):"]⟩

def ask_place_handler (ud : UserData) (payload : String) : HandlerOut :=
  match pyInt? payload with
  | none => ⟨PyResult.ok ConvState.ASK_PLACE ud, [], ["Invalid input for place score. Please try again:"]⟩
  | some n =>
    match ud.vibe_data with
    | none => ⟨PyResult.exn "KeyError" ud, [], []⟩
    | some d =>
      ⟨PyResult.ok ConvState.ASK_SPACIOUSNESS { ud with vibe_data := some { d with place := some n } },
       [], ["Score for Spaciousness (1-5):"]⟩

def ask_spaciousness_handler (ud : UserData) (payload : String) : HandlerOut :=
  match pyInt? payload with
  | none => ⟨PyResult.ok ConvState.ASK_SPACIOUSNESS ud, [],
             ["Invalid input for spaciousness score. Please try again:"]⟩
  | some n =>
    match ud.vibe_data with
    | none => ⟨PyResult.exn "KeyError" ud, [], []⟩
    | some d =>
      ⟨PyResult.ok ConvState.ASK_CONVO { ud with vibe_data := some { d with spaciousness := some n } },
       [], ["Score for Convo (1-5):"]⟩

def ask_convo_handler (ud : UserData) (payload : String) : HandlerOut :=
  match pyInt? payload with
  | none => ⟨PyResult.ok ConvState.ASK_CONVO ud, [], ["Invalid input for convo score. Please try again:"]⟩
  | some n =>
    match ud.vibe_data with
    | none => ⟨PyResult.exn "KeyError" ud, [], []⟩
    | some d =>
      ⟨PyResult.ok ConvState.ASK_VIBE { ud with vibe_data := some { d with convo := some n } },
       [], ["Is the vibe good or bad?"]⟩

/-- The confirmation summary rendered by `ask_vibe_handler`. -/
def confirmText (d : VibeData) : String :=
  "Confirm your input:\n" ++
  "Name: " ++ showOptS d.name ++ "\n" ++
  "Date: " ++ showOptS d.date ++ "\n" ++
  "Food: " ++ showOptI d.food ++ "\n" ++
  "Place: " ++ showOptI d.place ++ "\n" ++
  "Spaciousness: " ++ showOptI d.spaciousness ++ "\n" ++
  "Convo: " ++ showOptI d.convo ++ "\n" ++
  "Vibe: " ++ showOptS d.vibe ++ "\n" ++
  "Reply \x27yes\x27 to save, \x27no\x27 to cancel:"

def ask_vibe_handler (ud : UserData) (payload : String) : HandlerOut :=
  match ud.vibe_data with
  | none => ⟨PyResult.exn "KeyError" ud, [], []⟩
  | some d =>
    let d2 := { d with vibe := some payload }
    ⟨PyResult.ok ConvState.CONFIRM { ud with vibe_data := some d2 }, [], [confirmText d2]⟩

/-- The seven-element row appended by `confirm_handler`:
`[name, date, food, place, spaciousness, convo, vibe]`. -/
def pendingVals (d : VibeData) : List CellValue :=
  [cellS d.name, cellS d.date, cellI d.food, cellI d.place,
   cellI d.spaciousness, cellI d.convo, cellS d.vibe]

/-- `confirm_handler`: on "yes" it appends and only then clears `user_data`;
a failing append raises out of the handler before the clear. Any other reply
skips the append and clears. -/
def confirm_handler (cfg : StoreCfg) (ud : UserData) (text : String) : HandlerOut :=
  if pyLower text = "yes" then
    let d := ud.vibe_data.getD {}
    if cfg.appendOk then
      ⟨PyResult.ok ConvState.END emptyUD, [StoreOp.append (pendingVals d)], ["Data saved!"]⟩
    else
      ⟨PyResult.exn "Failed to append row" ud, [StoreOp.append (pendingVals d)], []⟩
  else
    ⟨PyResult.ok ConvState.END emptyUD, [], ["Input canceled."]⟩

/-! ## Rankings calculator (`show_rankings`) -/

/-- `good_vibes` filter: at least seven cells and a case-insensitive label. -/
def vibeFilter (label : String) (row : List String) : Bool :=
  decide (7 ≤ row.length) && pyLower (row.getD 6 "") == label

def goodVibes (data : List (List String)) : List (List String) :=
  (data.drop 1).filter (vibeFilter "good")

def badVibes (data : List (List String)) : List (List String) :=
  (data.drop 1).filter (vibeFilter "bad")

/-- `sum(int(row[col]) for row in rows) / len(rows)`; `none` when some cell
does not parse as an int (the comprehension raises `ValueError`). -/
def avgOf? (rows : List (List String)) (col : Nat) : Option ℚ :=
  (rows.mapM (fun row => pyInt? (row.getD col ""))).map
    (fun ns => ((ns.sum : ℚ) / (rows.length : ℚ)))

/-- The four per-attribute means, in the fixed dict order
`food, place, spaciousness, convo` (columns 2..5). -/
def means? (rows : List (List String)) : Option (List (String × ℚ)) :=
  match avgOf? rows 2, avgOf? rows 3, avgOf? rows 4, avgOf? rows 5 with
  | some f, some p, some sp, some c =>
    some [("food", f), ("place", p), ("spaciousness", sp), ("convo", c)]
  | _, _, _, _ => Option.none

/-- `diffs = {attr: good_avg[attr] - bad_avg[attr] for attr in attrs}`. -/
def diffsOf (g b : List (String × ℚ)) : List (String × ℚ) :=
  List.zipWith (fun x y => (x.1, x.2 - y.2)) g b

/-- Round half to even, as Python float repr/format does on exact ties. -/
def roundHalfEven (q : ℚ) : Int :=
  let f := ⌊q⌋
  let frac := q - f
  if frac < 1/2 then f
  else if 1/2 < frac then f + 1
  else if f % 2 = 0 then f else f + 1

/-- Python `f"{q:.2f}"` (floats modelled as exact rationals). -/
def fmt2 (q : ℚ) : String :=
  let n := (roundHalfEven (q * 100)).natAbs
  let sign := if q < 0 then "-" else ""
  sign ++ toString (n / 100) ++ "." ++ (if n % 100 < 10 then "0" else "") ++ toString (n % 100)

def rankingSection (ranking : List (String × ℚ)) : String :=
  "Ranking of attributes for good vibes:\n" ++
  String.intercalate "\n"
    (ranking.enum.map (fun p =>
      toString (p.1 + 1) ++ ". " ++ pyCapitalize p.2.1 ++ " (difference: " ++ fmt2 p.2.2 ++ ")"))

def goodSection (g : List (String × ℚ)) : String :=
  "Good vibes averages:\n" ++
  String.intercalate "\n" (g.map (fun p => "- " ++ pyCapitalize p.1 ++ ": " ++ fmt2 p.2))

def badSection (b : List (String × ℚ)) : String :=
  "Bad vibes averages:\n" ++
  String.intercalate "\n" (b.map (fun p => "- " ++ pyCapitalize p.1 ++ ": " ++ fmt2 p.2))

/-- The final rankings message: ranked differences, then good-partition
means, then bad-partition means. -/
def reportMessage (ranking g b : List (String × ℚ)) : String :=
  rankingSection ranking ++ "\n\n" ++ goodSection g ++ "\n\n" ++ badSection b

/-- Observable outcome of `show_rankings`. -/
inductive RankOutcome where
  | fetchError
  | notEnough
  | calcError
  | report (ranking g b : List (String × ℚ)) (message : String)
deriving DecidableEq, Repr

def show_rankings (cfg : StoreCfg) : RankOutcome :=
  if !cfg.fetchOk then RankOutcome.fetchError
  else
    let good := goodVibes cfg.sheet
    let bad := badVibes cfg.sheet
    if good.isEmpty || bad.isEmpty then RankOutcome.notEnough
    else
      match means? good, means? bad with
      | some g, some b =>
        let ranking := (diffsOf g b).insertionSort (fun x y => y.2 ≤ x.2)
        RankOutcome.report ranking g b (reportMessage ranking g b)
      | _, _ => RankOutcome.calcError

/-- The chat message the rankings path edits into the menu message. -/
def rankMessage : RankOutcome → String
  | RankOutcome.fetchError => "Error retrieving data."
  | RankOutcome.notEnough => "Not enough data for rankings."
  | RankOutcome.calcError => "Error calculating averages."
  | RankOutcome.report _ _ _ m => m

/-! ## Menu, edit and delete handlers -/

/-- `button_handler`, the conversation entry point for inline-button presses. -/
def button_handler (cfg : StoreCfg) (ud : UserData) (payload : String) : HandlerOut :=
  if payload = "input" then
    ⟨PyResult.ok ConvState.ASK_NAME ud, [], ["Please enter the name of the place:"]⟩
  else if payload = "edit" then
    if !cfg.fetchOk then ⟨PyResult.exn "Failed to get data" ud, [], []⟩
    else
      match list_records_formatted cfg.sheet with
      | Except.error e => ⟨PyResult.exn e ud, [], []⟩
      | Except.ok (formatted, mapping) =>
        if !mapping.isEmpty then
          ⟨PyResult.ok ConvState.SELECT_RECORD_EDIT { ud with record_list_edit := mapping },
           [], ["Select a record to edit by sending its number:\n" ++ formatted]⟩
        else
          ⟨PyResult.ok ConvState.END ud, [], ["No records found."]⟩
  else if payload = "delete" then
    if !cfg.fetchOk then ⟨PyResult.exn "Failed to get data" ud, [], []⟩
    else
      match list_records_formatted cfg.sheet with
      | Except.error e => ⟨PyResult.exn e ud, [], []⟩
      | Except.ok (formatted, mapping) =>
        if !mapping.isEmpty then
          ⟨PyResult.ok ConvState.SELECT_RECORD_DELETE { ud with record_list_delete := mapping },
           [], ["Select a record to delete by sending its number:\n" ++ formatted]⟩
        else
          ⟨PyResult.ok ConvState.END ud, [], ["No records found."]⟩
  else if payload = "rankings" then
    ⟨PyResult.ok ConvState.END ud, [], [rankMessage (show_rankings cfg)]⟩
  else
    ⟨PyResult.ok ConvState.END ud, [], []⟩

/-- The record summary shown after a selection (`record[0]`…`record[6]`). -/
def selectedText (record : List String) : String :=
  "Name: " ++ record.getD 0 "" ++ "\nDate: " ++ record.getD 1 "" ++ "\nFood: " ++
  record.getD 2 "" ++ "\nPlace: " ++ record.getD 3 "" ++ "\nSpaciousness: " ++
  record.getD 4 "" ++ "\nConvo: " ++ record.getD 5 "" ++ "\nVibe: " ++ record.getD 6 ""

def select_record_edit_handler (ud : UserData) (text : String) : HandlerOut :=
  match pyInt? (pyStrip text) with
  | none =>
    ⟨PyResult.ok ConvState.SELECT_RECORD_EDIT ud, [], ["Invalid selection. Please enter a number."]⟩
  | some n =>
    match ud.record_list_edit.find? (fun p => ((p.1 : Int) == n)) with
    | none =>
      ⟨PyResult.ok ConvState.SELECT_RECORD_EDIT ud, [],
       ["Selection out of range. Please enter a valid number."]⟩
    | some entry =>
      let ud2 := { ud with selected_record_edit := some entry.2 }
      if 7 ≤ entry.2.data.length then
        ⟨PyResult.ok ConvState.SHOW_CURRENT_DATA ud2, [],
         ["You selected:\n" ++ selectedText entry.2.data ++
          "\nWhich field do you want to edit? (Food, Place, Spaciousness, Convo, Vibe)"]⟩
      else ⟨PyResult.exn "IndexError" ud2, [], []⟩

def select_record_delete_handler (ud : UserData) (text : String) : HandlerOut :=
  match pyInt? (pyStrip text) with
  | none =>
    ⟨PyResult.ok ConvState.SELECT_RECORD_DELETE ud, [], ["Invalid selection. Please enter a number."]⟩
  | some n =>
    match ud.record_list_delete.find? (fun p => ((p.1 : Int) == n)) with
    | none =>
      ⟨PyResult.ok ConvState.SELECT_RECORD_DELETE ud, [],
       ["Selection out of range. Please enter a valid number."]⟩
    | some entry =>
      let ud2 := { ud with selected_record_delete := some entry.2 }
      if 7 ≤ entry.2.data.length then
        ⟨PyResult.ok ConvState.CONFIRM_DELETE ud2, [],
         ["You selected:\n" ++ selectedText entry.2.data ++
          "\nAre you sure you want to delete this record? (yes/no)"]⟩
      else ⟨PyResult.exn "IndexError" ud2, [], []⟩

def confirm_delete_handler (cfg : StoreCfg) (ud : UserData) (text : String) : HandlerOut :=
  if pyLower text = "yes" then
    match ud.selected_record_delete with
    | some r =>
      if cfg.clearOk then
        ⟨PyResult.ok ConvState.END emptyUD, [StoreOp.clearRow r.index], ["Record deleted."]⟩
      else ⟨PyResult.exn "Failed to delete row" ud, [StoreOp.clearRow r.index], []⟩
    | none => ⟨PyResult.ok ConvState.END emptyUD, [], ["Error: Record not found."]⟩
  else
    ⟨PyResult.ok ConvState.END emptyUD, [], ["Deletion canceled."]⟩

def numericFields : List String := ["food", "place", "spaciousness", "convo"]

def show_current_data_handler (ud : UserData) (text : String) : HandlerOut :=
  let field := pyLower text
  let ud2 := { ud with field_to_edit := some field }
  if numericFields.contains field then
    ⟨PyResult.ok ConvState.ASK_NEW_VALUE ud2, [],
     ["Enter new score for " ++ pyCapitalize field ++ " (1-5):"]⟩
  else if field == "vibe" then
    ⟨PyResult.ok ConvState.ASK_NEW_VALUE ud2, [], ["Select new vibe:"]⟩
  else
    ⟨PyResult.ok ConvState.SHOW_CURRENT_DATA ud2, [], ["Invalid field. Try again:"]⟩

def ask_new_value_handler (ud : UserData) (payload : String) : HandlerOut :=
  let ud2 := { ud with new_value := some payload }
  let field := ud2.field_to_edit.getD ""
  ⟨PyResult.ok ConvState.CONFIRM_EDIT ud2, [],
   ["New " ++ pyCapitalize field ++ ": " ++ payload ++ "\nConfirm? (yes/no):"]⟩

/-- `col_map = {"food": 3, "place": 4, "spaciousness": 5, "convo": 6, "vibe": 7}`. -/
def colMap? (field : String) : Option Nat :=
  if field = "food" then some 3
  else if field = "place" then some 4
  else if field = "spaciousness" then some 5
  else if field = "convo" then some 6
  else if field = "vibe" then some 7
  else Option.none

def confirm_edit_handler (cfg : StoreCfg) (ud : UserData) (text : String) : HandlerOut :=
  if pyLower text = "yes" then
    match ud.field_to_edit, ud.selected_record_edit with
    | some field, some r =>
      match colMap? field with
      | some col =>
        if cfg.updateOk then
          ⟨PyResult.ok ConvState.END emptyUD,
           [StoreOp.updateCell r.index col (cellS ud.new_value)], ["Data updated!"]⟩
        else
          ⟨PyResult.exn "Failed to update cell" ud,
           [StoreOp.updateCell r.index col (cellS ud.new_value)], []⟩
      | none => ⟨PyResult.ok ConvState.END emptyUD, [], ["Error: Invalid field or record data."]⟩
    | _, _ => ⟨PyResult.ok ConvState.END emptyUD, [], ["Error: Invalid field or record data."]⟩
  else
    ⟨PyResult.ok ConvState.END emptyUD, [], ["Edit canceled."]⟩

def cancel_handler (_ud : UserData) : HandlerOut :=
  ⟨PyResult.ok ConvState.END emptyUD, [], ["Operation canceled."]⟩

/-! ## Dispatcher -/

/-- The `ConversationHandler` routing table: per-state handlers, the
`/cancel` fallback, and the `/start` + button entry points when no
conversation is active. An update with no matching handler leaves state and
`user_data` untouched. -/
def step (cfg : StoreCfg) (st : ConvState) (ud : UserData) (i : Input) : HandlerOut :=
  match st, i with
  | ConvState.END, Input.cmd c =>
    if c = "start" then start_handler ud else ⟨PyResult.ok ConvState.END ud, [], []⟩
  | ConvState.END, Input.callback d => button_handler cfg ud d
  | ConvState.END, Input.msg _ => ⟨PyResult.ok ConvState.END ud, [], []⟩
  | s, Input.cmd c => if c = "cancel" then cancel_handler ud else ⟨PyResult.ok s ud, [], []⟩
  | ConvState.ASK_PASSWORD, Input.msg t => ask_password_handler ud t
  | ConvState.ASK_NAME, Input.msg t => ask_name_handler ud t
  | ConvState.ASK_DATE, Input.msg t => ask_date_handler ud t
  | ConvState.ASK_FOOD, Input.callback d => ask_food_handler ud d
  | ConvState.ASK_PLACE, Input.callback d => ask_place_handler ud d
  | ConvState.ASK_SPACIOUSNESS, Input.callback d => ask_spaciousness_handler ud d
  | ConvState.ASK_CONVO, Input.callback d => ask_convo_handler ud d
  | ConvState.ASK_VIBE, Input.callback d => ask_vibe_handler ud d
  | ConvState.CONFIRM, Input.msg t => confirm_handler cfg ud t
  | ConvState.SELECT_RECORD_EDIT, Input.msg t => select_record_edit_handler ud t
  | ConvState.SHOW_CURRENT_DATA, Input.msg t => show_current_data_handler ud t
  | ConvState.ASK_NEW_VALUE, Input.callback d => ask_new_value_handler ud d
  | ConvState.CONFIRM_EDIT, Input.msg t => confirm_edit_handler cfg ud t
  | ConvState.SELECT_RECORD_DELETE, Input.msg t => select_record_delete_handler ud t
  | ConvState.CONFIRM_DELETE, Input.msg t => confirm_delete_handler cfg ud t
  | s, _ => ⟨PyResult.ok s ud, [], []⟩

/-- One dispatched update. On an escaped exception the framework keeps the
previous conversation state, while `user_data` keeps the mutations made
before the raise. -/
def runStep (cfg : StoreCfg) (s : ConvState × UserData) (i : Input) :
    (ConvState × UserData) × List StoreOp :=
  let out := step cfg s.1 s.2 i
  match out.res with
  | PyResult.ok st ud => ((st, ud), out.ops)
  | PyResult.exn _ ud => ((s.1, ud), out.ops)

/-- A whole sequence of updates, collecting the store calls in order. -/
def run (cfg : StoreCfg) : ConvState × UserData → List Input → (ConvState × UserData) × List StoreOp
  | s, [] => (s, [])
  | s, i :: rest =>
    let r1 := runStep cfg s i
    let r2 := run cfg r1.1 rest
    (r2.1, r1.2 ++ r2.2)

/-! ## Derived notions used in the statements -/

/-- The `{"index": .., "data": ..}` reference built from a filtered triple. -/
def recToRef (r : ValidRec) : RecordRef := ⟨r.index, r.row⟩

/-- Re-parse the date key of a listed reference. -/
def refKey? (r : RecordRef) : Option Nat := (rowDate? r.data).map dateKey

/-- Date key of a listed reference, defaulting to 0 (never hit on listed rows). -/
def keyOfRef (r : RecordRef) : Nat := (refKey? r).getD 0

def digitVal (c : Char) : Nat := c.toNat - 48

/-- Stated from the spec: a real Gregorian calendar date (`datetime` requires
year at least 1). -/
def isRealDate (d m y : Nat) : Prop :=
  1 ≤ d ∧ 1 ≤ m ∧ m ≤ 12 ∧ 1 ≤ y ∧ d ≤ daysInMonth m y

/-- Stated from the spec: the strict two-digit/two-digit/four-digit
`DD/MM/YYYY` pattern, together with real calendar-date validity of the
denoted day/month/year. Used to compare the code's acceptance condition
against the specified one. -/
def specAcceptsDate (s : String) : Prop :=
  match s.toList with
  | [a, b, s1, c, d, s2, e, f, g, h] =>
    s1 = '/' ∧ s2 = '/' ∧
    a.isDigit = true ∧ b.isDigit = true ∧ c.isDigit = true ∧ d.isDigit = true ∧
    e.isDigit = true ∧ f.isDigit = true ∧ g.isDigit = true ∧ h.isDigit = true ∧
    isRealDate (10 * digitVal a + digitVal b) (10 * digitVal c + digitVal d)
      (1000 * digitVal e + 100 * digitVal f + 10 * digitVal g + digitVal h)
  | _ => False

/-- The payloads the bot's own inline buttons can deliver at each state:
score buttons emit "1".."5", vibe buttons emit "good"/"bad". Anything is
allowed elsewhere. -/
def buttonsOk : ConvState → Input → Bool
  | ConvState.ASK_FOOD, Input.callback d => d == "1" || d == "2" || d == "3" || d == "4" || d == "5"
  | ConvState.ASK_PLACE, Input.callback d => d == "1" || d == "2" || d == "3" || d == "4" || d == "5"
  | ConvState.ASK_SPACIOUSNESS, Input.callback d =>
    d == "1" || d == "2" || d == "3" || d == "4" || d == "5"
  | ConvState.ASK_CONVO, Input.callback d => d == "1" || d == "2" || d == "3" || d == "4" || d == "5"
  | ConvState.ASK_VIBE, Input.callback d => d == "good" || d == "bad"
  | _, _ => true

/-- A whole input sequence delivers only button-shaped payloads, judged at
the state each input is consumed in. -/
def traceOk (cfg : StoreCfg) : ConvState × UserData → List Input → Bool
  | _, [] => true
  | s, i :: rest => buttonsOk s.1 i && traceOk cfg (runStep cfg s i).1 rest

/-- The cell holds an integer score in 1..5. -/
def scoreCellOk (v : CellValue) : Prop := ∃ n : Int, v = CellValue.int n ∧ 1 ≤ n ∧ n ≤ 5

/-- The cell holds the label "good" or "bad". -/
def vibeCellOk (v : CellValue) : Prop := v = CellValue.str "good" ∨ v = CellValue.str "bad"

/-- An appended row carries well-ranged scores in columns 3..6 and a good/bad
label in column 7; non-append calls are unconstrained. -/
def appendScoresOk : StoreOp → Prop
  | StoreOp.append vals =>
    scoreCellOk (vals.getD 2 CellValue.null) ∧ scoreCellOk (vals.getD 3 CellValue.null) ∧
    scoreCellOk (vals.getD 4 CellValue.null) ∧ scoreCellOk (vals.getD 5 CellValue.null) ∧
    vibeCellOk (vals.getD 6 CellValue.null)
  | _ => True

def scoreSome (o : Option Int) : Prop := ∃ n, o = some n ∧ 1 ≤ n ∧ n ≤ 5

def vibeSome (o : Option String) : Prop := o = some "good" ∨ o = some "bad"

/-- Reachability invariant of the Create sub-flow under button-shaped
payloads: each state past a score prompt has the already-collected scores in
range, and the confirmation state also has a good/bad label. -/
def udInv : ConvState → UserData → Prop
  | ConvState.ASK_PLACE, ud => ∃ d, ud.vibe_data = some d ∧ scoreSome d.food
  | ConvState.ASK_SPACIOUSNESS, ud =>
    ∃ d, ud.vibe_data = some d ∧ scoreSome d.food ∧ scoreSome d.place
  | ConvState.ASK_CONVO, ud =>
    ∃ d, ud.vibe_data = some d ∧ scoreSome d.food ∧ scoreSome d.place ∧ scoreSome d.spaciousness
  | ConvState.ASK_VIBE, ud =>
    ∃ d, ud.vibe_data = some d ∧ scoreSome d.food ∧ scoreSome d.place ∧
      scoreSome d.spaciousness ∧ scoreSome d.convo
  | ConvState.CONFIRM, ud =>
    ∃ d, ud.vibe_data = some d ∧ scoreSome d.food ∧ scoreSome d.place ∧
      scoreSome d.spaciousness ∧ scoreSome d.convo ∧ vibeSome d.vibe
  | _, _ => True

/-- Whether the rankings path produced a ranked report at all. -/
def isReport : RankOutcome → Bool
  | RankOutcome.report _ _ _ _ => true
  | _ => false

/-! ## Concrete fixtures -/

/-- A healthy store with an empty sheet. -/
def cfgOk : StoreCfg := { sheet := [] }

/-- A store whose append endpoint fails. -/
def cfgBad : StoreCfg := { sheet := [], appendOk := false }

/-- A fully collected pending `vibe_data`. -/
def vd1 : VibeData :=
  { name := some "Cafe X"
    date := some "15/06/2024"
    food := some 4
    place := some 5
    spaciousness := some 3
    convo := some 2
    vibe := some "good" }

/-- A fully collected pending record. -/
def ud1 : UserData := { vibe_data := some vd1 }

/-- A session that has just selected record at sheet row 5 for editing. -/
def udE : UserData :=
  { selected_record_edit := some ⟨5, ["A", "01/01/2024", "5", "4", "3", "2", "good"]⟩ }

/-- A Create run whose callback payloads are not button-shaped: "7" as the
food score and "meh" as the vibe label. -/
def adversarialInputs : List Input :=
  [Input.callback "input", Input.msg "Cafe", Input.msg "15/06/2024",
   Input.callback "7", Input.callback "1", Input.callback "1", Input.callback "1",
   Input.callback "meh", Input.msg "yes"]

/-- A Create run using only button-shaped payloads. -/
def buttonInputs : List Input :=
  [Input.callback "input", Input.msg "Cafe", Input.msg "15/06/2024",
   Input.callback "4", Input.callback "5", Input.callback "3", Input.callback "2",
   Input.callback "good", Input.msg "yes"]

/-- Sheet with two well-formed rows and one row with seven fields, a "good"
label, and a non-integer food score. -/
def sheetC2 : List (List String) :=
  [["Name", "Date", "Food", "Place", "Spaciousness", "Convo", "Vibe"],
   ["G", "01/01/2024", "5", "5", "5", "5", "good"],
   ["B", "01/01/2024", "1", "1", "1", "1", "bad"],
   ["M", "01/01/2024", "x", "1", "1", "1", "good"]]

/-- Sheet whose rows have unparsable dates but well-formed labels/scores. -/
def sheetJunkDates : List (List String) :=
  [["h"], ["G", "junk", "5", "5", "5", "5", "good"], ["B", "junk", "1", "1", "1", "1", "bad"]]

def rankJ : List (String × ℚ) :=
  [("food", 4), ("place", 4), ("spaciousness", 4), ("convo", 4)]

def goodJ : List (String × ℚ) :=
  [("food", 5), ("place", 5), ("spaciousness", 5), ("convo", 5)]

def badJ : List (String × ℚ) :=
  [("food", 1), ("place", 1), ("spaciousness", 1), ("convo", 1)]

/-- Sheet with one good and one bad row and strictly decreasing differences. -/
def sheet5 : List (List String) :=
  [["Name", "Date", "Food", "Place", "Spaciousness", "Convo", "Vibe"],
   ["G", "01/01/2024", "5", "4", "3", "2", "good"],
   ["B", "02/01/2024", "1", "1", "1", "1", "bad"]]

def rank5 : List (String × ℚ) :=
  [("food", 4), ("place", 3), ("spaciousness", 2), ("convo", 1)]

def good5 : List (String × ℚ) :=
  [("food", 5), ("place", 4), ("spaciousness", 3), ("convo", 2)]

def bad5 : List (String × ℚ) :=
  [("food", 1), ("place", 1), ("spaciousness", 1), ("convo", 1)]

/-- Sheet for the listing: three date-valid rows (two sharing a date) and one
row whose date does not parse. -/
def dataW : List (List String) :=
  [["Name", "Date", "Food", "Place", "Sp", "Convo", "Vibe"],
   ["B", "02/01/2024", "1", "2", "3", "4", "bad"],
   ["A", "01/01/2024", "5", "4", "3", "2", "good"],
   ["C", "01/01/2024", "2", "2", "2", "2", "good"],
   ["junk", "notadate"]]

def rowB : List String := ["B", "02/01/2024", "1", "2", "3", "4", "bad"]

def rowA : List String := ["A", "01/01/2024", "5", "4", "3", "2", "good"]

def rowC : List String := ["C", "01/01/2024", "2", "2", "2", "2", "good"]

def txtW : String :=
  "1. B | 02/01/2024 | 2 | Food: 1, Spaciousness: 3, Convo: 4, Vibe: bad\n" ++
  "2. A | 01/01/2024 | 4 | Food: 5, Spaciousness: 3, Convo: 2, Vibe: good\n" ++
  "3. C | 01/01/2024 | 2 | Food: 2, Spaciousness: 2, Convo: 2, Vibe: good"

def mW : List (Nat × RecordRef) :=
  [(1, ⟨2, rowB⟩), (2, ⟨3, rowA⟩), (3, ⟨4, rowC⟩)]

/-- Sheet whose only date-valid row has fewer than seven fields. -/
def dataShort : List (List String) :=
  [["Name", "Date", "Food", "Place", "Sp", "Convo", "Vibe"], ["A", "01/01/2024"]]

/-! # Helper lemmas -/

theorem daysInMonth_le_31 (m y : Nat) : daysInMonth m y ≤ 31 := by
  unfold daysInMonth
  split_ifs <;> omega

theorem colMap?_cases {f : String} {c : Nat} (h : colMap? f = some c) :
    (f = "food" ∧ c = 3) ∨ (f = "place" ∧ c = 4) ∨ (f = "spaciousness" ∧ c = 5) ∨
    (f = "convo" ∧ c = 6) ∨ (f = "vibe" ∧ c = 7) := by
  unfold colMap? at h
  split_ifs at h with h1 h2 h3 h4 h5 <;> simp_all

theorem pairwise_desc_insertionSort {α β : Type} [LinearOrder β] (k : α → β)
    [DecidableRel (fun a b : α => k b ≤ k a)] (l : List α) :
    List.Pairwise (fun a b => k b ≤ k a) (l.insertionSort (fun a b => k b ≤ k a)) := by
  haveI : IsTotal α (fun a b => k b ≤ k a) := ⟨fun a b => le_total (k b) (k a)⟩
  haveI : IsTrans α (fun a b => k b ≤ k a) := ⟨fun _ _ _ h1 h2 => le_trans h2 h1⟩
  exact List.sorted_insertionSort _ l

/-- Stability of the sort, phrased as: for each key value the sorted list's
elements with that key are exactly the input's elements with that key, in
input order. -/
theorem insertionSort_filter_key {α β : Type} [LinearOrder β] (k : α → β)
    [DecidableRel (fun a b : α => k b ≤ k a)] (l : List α) (K : β) :
    (l.insertionSort (fun a b => k b ≤ k a)).filter (fun a => decide (k a = K)) =
      l.filter (fun a => decide (k a = K)) := by
  set p : α → Bool := fun a => decide (k a = K) with hp
  have hmem : ∀ a ∈ l.filter p, k a = K := by
    intro a ha
    have h2 := (List.mem_filter.mp ha).2
    simpa [hp] using h2
  have hpw : (l.filter p).Pairwise (fun a b => k b ≤ k a) := by
    refine List.pairwise_of_forall_mem_list ?_
    intro a ha b hb
    rw [hmem a ha, hmem b hb]
  have h1 : (l.filter p).Sublist (l.insertionSort (fun a b => k b ≤ k a)) :=
    List.sublist_insertionSort hpw (List.filter_sublist l)
  have h2 : ((l.filter p).filter p).Sublist
      ((l.insertionSort (fun a b => k b ≤ k a)).filter p) := List.Sublist.filter p h1
  rw [List.filter_filter] at h2
  simp only [Bool.and_self] at h2
  have h3 : ((l.insertionSort (fun a b => k b ≤ k a)).filter p).length = (l.filter p).length :=
    (List.Perm.filter p (List.perm_insertionSort _ l)).length_eq
  exact (List.Sublist.eq_of_length h2 h3.symm).symm

theorem validRecordsAux_mem {l : List (List String)} {i : Nat} {r : ValidRec}
    (h : r ∈ validRecordsAux i l) :
    i ≤ r.index ∧ l[r.index - i]? = some r.row ∧
      ∃ dmy, rowDate? r.row = some dmy ∧ r.key = dateKey dmy := by
  induction l generalizing i with
  | nil => simp [validRecordsAux] at h
  | cons row rest ih =>
    rw [validRecordsAux] at h
    rcases hrd : rowDate? row with _ | dmy <;> rw [hrd] at h
    · obtain ⟨h1, h2, h3⟩ := ih h
      refine ⟨by omega, ?_, h3⟩
      rw [show r.index - i = (r.index - (i + 1)) + 1 by omega, List.getElem?_cons_succ]
      exact h2
    · rcases List.mem_cons.mp h with heq | hmem
      · subst heq
        exact ⟨le_refl i, by simp, dmy, hrd, rfl⟩
      · obtain ⟨h1, h2, h3⟩ := ih hmem
        refine ⟨by omega, ?_, h3⟩
        rw [show r.index - i = (r.index - (i + 1)) + 1 by omega, List.getElem?_cons_succ]
        exact h2

theorem validRecords_mem {data : List (List String)} {r : ValidRec}
    (h : r ∈ validRecords data) :
    2 ≤ r.index ∧ data[r.index - 1]? = some r.row ∧
      ∃ dmy, rowDate? r.row = some dmy ∧ r.key = dateKey dmy := by
  obtain ⟨h1, h2, h3⟩ := validRecordsAux_mem h
  refine ⟨h1, ?_, h3⟩
  rw [List.getElem?_drop] at h2
  rwa [show r.index - 1 = 1 + (r.index - 2) by omega]

theorem validRecordsAux_pairwise (l : List (List String)) (i : Nat) :
    List.Pairwise (fun a b => a.index < b.index) (validRecordsAux i l) := by
  induction l generalizing i with
  | nil => simp [validRecordsAux]
  | cons row rest ih =>
    rw [validRecordsAux]
    rcases hrd : rowDate? row with _ | dmy
    · exact ih (i + 1)
    · refine List.Pairwise.cons ?_ (ih (i + 1))
      intro b hb
      have hle := (validRecordsAux_mem hb).1
      simp only []
      omega

/-- Looking up an integer selection in a mapping whose keys are `s, s+1, …`
finds exactly the entry at offset `n - s`. -/
theorem find_int_eq_getElem {γ : Type} (m : List (Nat × γ)) (s n : Nat)
    (hkeys : m.map Prod.fst = List.range' s m.length) (h1 : s ≤ n) (h2 : n < s + m.length) :
    m.find? (fun p => ((p.1 : Int) == (n : Int))) = m[n - s]? := by
  induction m generalizing s with
  | nil => simp at h2; omega
  | cons a rest ih =>
    simp only [List.map_cons, List.length_cons, List.range'_succ] at hkeys
    obtain ⟨ha, hrest⟩ := List.cons.injEq .. |>.mp hkeys |>.imp id id
    by_cases hn : n = s
    · subst hn
      rw [List.find?_cons_of_pos _ (by simp [ha]), show n - n = 0 by omega]
      simp
    · rw [List.find?_cons_of_neg _ (by simp [ha]; omega),
        show n - s = (n - (s + 1)) + 1 by omega, List.getElem?_cons_succ]
      exact ih (s + 1) hrest (by omega) (by simp at h2 ⊢; omega)

set_option maxRecDepth 8192 in
unseal Rat.add Rat.sub Rat.mul Rat.inv in
theorem junkDates_report :
    show_rankings { sheet := sheetJunkDates } =
      RankOutcome.report rankJ goodJ badJ (reportMessage rankJ goodJ badJ) := by decide

/-! # C1 -/

/-- C1: the claim states that a `StoreError` during the confirmation append
discards the pending session data and returns to the idle state. In the code
`confirm_handler` has no `try` around `append_row`: the exception escapes
before `context.user_data.clear()` runs, so the session keeps its pending
record and the conversation stays in the confirmation state. Concrete
refutation at a fully collected record. -/
theorem C1_counterexample :
    runStep cfgBad (ConvState.CONFIRM, ud1) (Input.msg "yes") =
      ((ConvState.CONFIRM, ud1),
       [StoreOp.append [CellValue.str "Cafe X", CellValue.str "15/06/2024", CellValue.int 4,
          CellValue.int 5, CellValue.int 3, CellValue.int 2, CellValue.str "good"]]) ∧
    ud1 ≠ emptyUD ∧ ConvState.CONFIRM ≠ ConvState.END := by
  refine ⟨?_, ?_, ?_⟩ <;> decide

/-- C1 (amended): when the append endpoint fails while confirming with
"yes", the handler raises; the session's pending data is left untouched, the
conversation remains in the confirmation state, and exactly one append is
attempted (no retry). -/
theorem C1_append_failure_keeps_session (cfg : StoreCfg) (ud : UserData) (t : String)
    (hfail : cfg.appendOk = false) (hyes : pyLower t = "yes") :
    runStep cfg (ConvState.CONFIRM, ud) (Input.msg t) =
      ((ConvState.CONFIRM, ud), [StoreOp.append (pendingVals (ud.vibe_data.getD {}))]) := by
  simp [runStep, step, confirm_handler, hyes, hfail]

/-- Witness for C1 (amended) at a concrete failing store and session. -/
theorem C1_append_failure_witness :
    runStep cfgBad (ConvState.CONFIRM, ud1) (Input.msg "YES") =
      ((ConvState.CONFIRM, ud1), [StoreOp.append (pendingVals (ud1.vibe_data.getD {}))]) :=
  C1_append_failure_keeps_session cfgBad ud1 "YES" (by decide) (by decide)

/-! # C3 -/

/-- C3: with a fully collected pending record and a healthy store, replying
"yes" (case-insensitively) appends exactly one row carrying the seven values
in the order name, date, food, place, spaciousness, convo, vibe, and clears
the session; any other reply appends nothing and clears the session. -/
theorem C3_confirm_round_trip (cfg : StoreCfg) (ud : UserData)
    (nm dt : String) (f p sp c : Int) (v t : String)
    (hok : cfg.appendOk = true)
    (hud : ud.vibe_data = some ⟨some nm, some dt, some f, some p, some sp, some c, some v⟩) :
    (pyLower t = "yes" →
      confirm_handler cfg ud t =
        ⟨PyResult.ok ConvState.END emptyUD,
         [StoreOp.append [CellValue.str nm, CellValue.str dt, CellValue.int f, CellValue.int p,
            CellValue.int sp, CellValue.int c, CellValue.str v]], ["Data saved!"]⟩) ∧
    (pyLower t ≠ "yes" →
      confirm_handler cfg ud t =
        ⟨PyResult.ok ConvState.END emptyUD, [], ["Input canceled."]⟩) := by
  constructor <;> intro h <;>
    simp [confirm_handler, h, hok, hud, pendingVals, cellS, cellI]

/-- Witness for C3: the "YES" and "no" replies at a concrete record. -/
theorem C3_witness :
    confirm_handler cfgOk ud1 "YES" =
      ⟨PyResult.ok ConvState.END emptyUD,
       [StoreOp.append [CellValue.str "Cafe X", CellValue.str "15/06/2024", CellValue.int 4,
          CellValue.int 5, CellValue.int 3, CellValue.int 2, CellValue.str "good"]],
       ["Data saved!"]⟩ ∧
    confirm_handler cfgOk ud1 "no" =
      ⟨PyResult.ok ConvState.END emptyUD, [], ["Input canceled."]⟩ :=
  ⟨(C3_confirm_round_trip cfgOk ud1 "Cafe X" "15/06/2024" 4 5 3 2 "good" "YES"
      (by decide) (by decide)).1 (by decide),
   (C3_confirm_round_trip cfgOk ud1 "Cafe X" "15/06/2024" 4 5 3 2 "good" "no"
      (by decide) (by decide)).2 (by decide)⟩

/-! # C2 -/

/-- C2: the claim states the Rankings computation keeps only rows with all
seven fields well-typed (skipping rows with bad dates or labels) and that
malformed rows are never fatal. In the code a row with seven fields and a
"good" label but a non-integer score makes the whole computation abort with
"Error calculating averages": no report is produced from the remaining
well-formed rows. Concrete refutation: `sheetC2` has two well-formed rows
plus one such row. -/
theorem C2_counterexample :
    show_rankings { sheet := sheetC2 } = RankOutcome.calcError ∧
    isReport (show_rankings { sheet := sheetC2 }) = false := by
  constructor <;> decide

/-- C2 (amended): the Rankings computation filters rows only by field count
(at least seven) and case-insensitive good/bad label — dates are never
validated — and rows failing that filter are indeed skipped and never fatal
(inserting one changes nothing); but a filtered-in row with a non-integer
score aborts the whole computation instead of being skipped. The second
conjunct shows rows with unparsable dates being used in a report. -/
theorem C2_rankings_filter_is_count_and_label
    (hdr row : List String) (pre post : List (List String))
    (hgood : vibeFilter "good" row = false) (hbad : vibeFilter "bad" row = false) :
    show_rankings { sheet := hdr :: (pre ++ row :: post) } =
      show_rankings { sheet := hdr :: (pre ++ post) } ∧
    show_rankings { sheet := sheetJunkDates } =
      RankOutcome.report rankJ goodJ badJ (reportMessage rankJ goodJ badJ) := by
  constructor
  · have hg : goodVibes (hdr :: (pre ++ row :: post)) = goodVibes (hdr :: (pre ++ post)) := by
      simp [goodVibes, List.filter_append, List.filter_cons, hgood]
    have hb : badVibes (hdr :: (pre ++ row :: post)) = badVibes (hdr :: (pre ++ post)) := by
      simp [badVibes, List.filter_append, List.filter_cons, hbad]
    simp only [show_rankings, hg, hb]
  · exact junkDates_report

/-- Witness for C2 (amended): inserting a malformed row (label "meh") into a
concrete sheet leaves the rankings outcome unchanged. -/
theorem C2_filter_witness :
    show_rankings { sheet := ["h"] ::
        ([["G", "junk", "5", "5", "5", "5", "good"]] ++
          ["M", "01/01/2024", "x", "1", "1", "1", "meh"] ::
            [["B", "junk", "1", "1", "1", "1", "bad"]]) } =
      show_rankings { sheet := ["h"] ::
        ([["G", "junk", "5", "5", "5", "5", "good"]] ++ [["B", "junk", "1", "1", "1", "1", "bad"]]) } :=
  (C2_rankings_filter_is_count_and_label ["h"] ["M", "01/01/2024", "x", "1", "1", "1", "meh"]
    [["G", "junk", "5", "5", "5", "5", "good"]] [["B", "junk", "1", "1", "1", "1", "bad"]]
    (by decide) (by decide)).1

/-! # C9 -/

/-- C9: a confirmed edit writes the raw callback payload string to the cell
(`update_cell` receives `query.data` unchanged), while the Create flow stores
`int(query.data)`; so the cell written by Edit is a JSON string, different in
type from the integer the Create flow appends for the same field. -/
theorem C9_edit_writes_raw_string
    (cfg : StoreCfg) (ud ud2 : UserData) (r : RecordRef) (d : VibeData) (v : String) (n : Int)
    (hupd : cfg.updateOk = true) (hsel : ud.selected_record_edit = some r)
    (hparse : pyInt? v = some n) (hud2 : ud2.vibe_data = some d) :
    (run cfg (ConvState.SHOW_CURRENT_DATA, ud) [Input.msg "food", Input.callback v, Input.msg "yes"]).2 =
      [StoreOp.updateCell r.index 3 (CellValue.str v)] ∧
    ask_food_handler ud2 v =
      ⟨PyResult.ok ConvState.ASK_PLACE { ud2 with vibe_data := some { d with food := some n } },
       [], ["Score for Place (1-5):"]⟩ ∧
    (∀ m : Int, CellValue.str v ≠ CellValue.int m) := by
  refine ⟨?_, ?_, ?_⟩
  · simp [run, runStep, step, show_current_data_handler, ask_new_value_handler,
      confirm_edit_handler, numericFields, colMap?, cellS, hupd, hsel, pyLower]
  · simp [ask_food_handler, hparse, hud2]
  · intro m h
    exact CellValue.noConfusion h

/-- Witness for C9 at payload "5" against a concrete selected record. -/
theorem C9_witness :
    (run cfgOk (ConvState.SHOW_CURRENT_DATA, udE)
        [Input.msg "food", Input.callback "5", Input.msg "yes"]).2 =
      [StoreOp.updateCell 5 3 (CellValue.str "5")] ∧
    ask_food_handler ud1 "5" =
      ⟨PyResult.ok ConvState.ASK_PLACE { ud1 with vibe_data := some { vd1 with food := some 5 } },
       [], ["Score for Place (1-5):"]⟩ ∧
    (∀ m : Int, CellValue.str "5" ≠ CellValue.int m) :=
  C9_edit_writes_raw_string cfgOk udE ud1 ⟨5, ["A", "01/01/2024", "5", "4", "3", "2", "good"]⟩
    vd1 "5" 5 (by decide) (by decide) (by decide) (by decide)

/-! # C8 -/

/-- C8: after selecting a record, choosing a field (case-insensitively) and a
new value and replying "yes" issues exactly one `update_cell` call at the
selected reference's row index and the column given by the field map
food↦3, place↦4, spaciousness↦5, convo↦6, vibe↦7. -/
theorem C8_edit_single_cell_update
    (cfg : StoreCfg) (ud : UserData) (r : RecordRef) (fstr v t : String) (col : Nat)
    (hupd : cfg.updateOk = true) (hsel : ud.selected_record_edit = some r)
    (hcol : colMap? (pyLower fstr) = some col) (hyes : pyLower t = "yes") :
    (run cfg (ConvState.SHOW_CURRENT_DATA, ud) [Input.msg fstr, Input.callback v, Input.msg t]).2 =
      [StoreOp.updateCell r.index col (CellValue.str v)] ∧
    colMap? "food" = some 3 ∧ colMap? "place" = some 4 ∧ colMap? "spaciousness" = some 5 ∧
    colMap? "convo" = some 6 ∧ colMap? "vibe" = some 7 := by
  refine ⟨?_, by decide, by decide, by decide, by decide, by decide⟩
  rcases colMap?_cases hcol with ⟨hf, hc⟩ | ⟨hf, hc⟩ | ⟨hf, hc⟩ | ⟨hf, hc⟩ | ⟨hf, hc⟩ <;>
    subst hc <;>
    simp [run, runStep, step, show_current_data_handler, ask_new_value_handler,
      confirm_edit_handler, numericFields, colMap?, cellS, hupd, hsel, hyes, hf]

/-- Witness for C8: field "Food" (mixed case), new value "5", reply "yes". -/
theorem C8_witness :
    (run cfgOk (ConvState.SHOW_CURRENT_DATA, udE)
        [Input.msg "Food", Input.callback "5", Input.msg "yes"]).2 =
      [StoreOp.updateCell 5 3 (CellValue.str "5")] ∧
    colMap? "food" = some 3 ∧ colMap? "place" = some 4 ∧ colMap? "spaciousness" = some 5 ∧
    colMap? "convo" = some 6 ∧ colMap? "vibe" = some 7 :=
  C8_edit_single_cell_update cfgOk udE ⟨5, ["A", "01/01/2024", "5", "4", "3", "2", "good"]⟩
    "Food" "5" "yes" 3 (by decide) (by decide) (by decide) (by decide)

/-! # C5 -/

/-- C5: whenever the rankings path produces a report (both partitions
non-empty and all scores parse), the reported good and bad averages are the
per-attribute arithmetic means of the two partitions, the ranking is a
permutation of the four per-attribute differences mean(good) − mean(bad)
sorted in descending order with ties kept in the fixed input order food,
place, spaciousness, convo (stability, phrased per difference value), and the
message shows the ranked differences, then the good means, then the bad
means. -/
theorem C5_report_structure (cfg : StoreCfg) (r g b : List (String × ℚ)) (msg : String)
    (h : show_rankings cfg = RankOutcome.report r g b msg) :
    means? (goodVibes cfg.sheet) = some g ∧
    means? (badVibes cfg.sheet) = some b ∧
    r.Perm (diffsOf g b) ∧
    List.Pairwise (fun x y => y.2 ≤ x.2) r ∧
    (∀ q : ℚ, r.filter (fun x => decide (x.2 = q)) =
      (diffsOf g b).filter (fun x => decide (x.2 = q))) ∧
    msg = rankingSection r ++ "\n\n" ++ goodSection g ++ "\n\n" ++ badSection b := by
  unfold show_rankings at h
  by_cases hf : cfg.fetchOk
  · rw [if_neg (by simp [hf])] at h
    by_cases he : (goodVibes cfg.sheet).isEmpty || (badVibes cfg.sheet).isEmpty
    · rw [if_pos he] at h
      exact absurd h (by simp)
    · rw [if_neg he] at h
      rcases hg : means? (goodVibes cfg.sheet) with _ | g0 <;>
        rcases hb : means? (badVibes cfg.sheet) with _ | b0 <;>
        rw [hg, hb] at h <;> simp only [] at h
      · exact absurd h (by simp)
      · exact absurd h (by simp)
      · exact absurd h (by simp)
      obtain ⟨hr, hg0, hb0, hmsg⟩ := RankOutcome.report.inj h
      subst hr
      subst hg0
      subst hb0
      subst hmsg
      exact ⟨rfl, rfl, List.perm_insertionSort _ _,
        pairwise_desc_insertionSort (fun x : String × ℚ => x.2) (diffsOf g0 b0),
        fun q => insertionSort_filter_key (fun x : String × ℚ => x.2) (diffsOf g0 b0) q, rfl⟩
  · rw [if_pos (by simp [hf])] at h
    exact absurd h (by simp)

set_option maxRecDepth 8192 in
unseal Rat.add Rat.sub Rat.mul Rat.inv in
/-- Witness for C5 at a concrete two-row sheet with strictly decreasing
differences. -/
theorem C5_witness :
    means? (goodVibes sheet5) = some good5 ∧ means? (badVibes sheet5) = some bad5 ∧
    rank5.Perm (diffsOf good5 bad5) ∧ List.Pairwise (fun x y => y.2 ≤ x.2) rank5 ∧
    (∀ q : ℚ, rank5.filter (fun x => decide (x.2 = q)) =
      (diffsOf good5 bad5).filter (fun x => decide (x.2 = q))) ∧
    reportMessage rank5 good5 bad5 =
      rankingSection rank5 ++ "\n\n" ++ goodSection good5 ++ "\n\n" ++ badSection bad5 :=
  C5_report_structure { sheet := sheet5 } rank5 good5 bad5 (reportMessage rank5 good5 bad5)
    (by decide)

/-! # C4 and C10: the Edit/Delete listing -/

/-- Inversion of a successful `list_records_formatted` call. -/
theorem list_records_ok_cases {data : List (List String)} {txt : String}
    {m : List (Nat × RecordRef)} (h : list_records_formatted data = Except.ok (txt, m)) :
    (m = [] ∧ sortRecords (validRecords data) = []) ∨
    m = (sortRecords (validRecords data)).enum.map
        (fun p => (p.1 + 1, (⟨p.2.index, p.2.row⟩ : RecordRef))) := by
  unfold list_records_formatted at h
  by_cases he : (sortRecords (validRecords data)).isEmpty
  · rw [if_pos he] at h
    simp only [Except.ok.injEq, Prod.mk.injEq] at h
    exact Or.inl ⟨h.2.symm, List.isEmpty_iff.mp he⟩
  · rw [if_neg he] at h
    by_cases hall : (sortRecords (validRecords data)).all (fun r => decide (7 ≤ r.row.length))
    · rw [if_pos hall] at h
      simp only [Except.ok.injEq, Prod.mk.injEq] at h
      exact Or.inr h.2.symm
    · rw [if_neg hall] at h
      exact absurd h (by simp)

/-- The references of the rendered mapping, in listing order, are the sorted
records. -/
theorem listing_map_snd (l : List ValidRec) :
    ((l.enum.map (fun p => (p.1 + 1, (⟨p.2.index, p.2.row⟩ : RecordRef)))).map Prod.snd) =
      l.map recToRef := by
  rw [List.map_map,
    show (Prod.snd ∘ (fun p : Nat × ValidRec => (p.1 + 1, (⟨p.2.index, p.2.row⟩ : RecordRef)))) =
      (recToRef ∘ Prod.snd) from rfl,
    ← List.map_map, List.enum_map_snd]

/-- The listing positions are `1, 2, …, N` in order. -/
theorem listing_map_fst (l : List ValidRec) :
    ((l.enum.map (fun p => (p.1 + 1, (⟨p.2.index, p.2.row⟩ : RecordRef)))).map Prod.fst) =
      List.range' 1 l.length := by
  rw [List.map_map,
    show (Prod.fst ∘ (fun p : Nat × ValidRec => (p.1 + 1, (⟨p.2.index, p.2.row⟩ : RecordRef)))) =
      ((fun x => x + 1) ∘ Prod.fst) from rfl,
    ← List.map_map, List.enum_map_fst, List.range'_eq_map_range]
  exact List.map_congr_left (fun a _ => Nat.add_comm a 1)

/-- Every reference of a listed entry re-parses to the key it was sorted by. -/
theorem sorted_keyOfRef {data : List (List String)} {r : ValidRec}
    (hr : r ∈ sortRecords (validRecords data)) : keyOfRef ⟨r.index, r.row⟩ = r.key := by
  have hrv : r ∈ validRecords data := (List.perm_insertionSort _ _).mem_iff.mp hr
  obtain ⟨_, _, dmy, hd, hk⟩ := validRecords_mem hrv
  simp [keyOfRef, refKey?, hd, hk]

/-- C4 (amended): on every sheet whose date-valid rows all have seven fields,
the listing succeeds; its mapping assigns positions 1..N in order over the
date-valid rows sorted by parsed date descending (the mapping's references
are exactly the valid records, most recent first), selecting number n looks
up exactly entry n (the n-th most recent valid record), and a parsed
selection number not present in the mapping re-prompts the same
`SELECT_RECORD_EDIT` state with an error message and no store call. (As
stated the claim is false: a date-valid row with fewer than seven fields
makes the listing raise `IndexError` instead — see the counterexample.) -/
theorem C4_listing_and_selection (data : List (List String))
    (hlen : ∀ row ∈ data.drop 1, (rowDate? row).isSome = true → 7 ≤ row.length) :
    (list_records_formatted data).toOption.isSome = true ∧
    ∀ txt m, list_records_formatted data = Except.ok (txt, m) →
      m.map Prod.fst = List.range' 1 m.length ∧
      List.Pairwise (fun a b => keyOfRef b.2 ≤ keyOfRef a.2) m ∧
      (m.map Prod.snd).Perm ((validRecords data).map recToRef) ∧
      (∀ n : Nat, 1 ≤ n → n ≤ m.length →
        m.find? (fun p => ((p.1 : Int) == (n : Int))) = m[n - 1]?) ∧
      (∀ ud t n, ud.record_list_edit = m → pyInt? (pyStrip t) = some n →
        (∀ p ∈ m, ((p.1 : Nat) : Int) ≠ n) →
        select_record_edit_handler ud t =
          ⟨PyResult.ok ConvState.SELECT_RECORD_EDIT ud, [],
           ["Selection out of range. Please enter a valid number."]⟩) := by
  have hall : (sortRecords (validRecords data)).all (fun r => decide (7 ≤ r.row.length)) = true := by
    rw [List.all_eq_true]
    intro r hr
    have hrv : r ∈ validRecords data := (List.perm_insertionSort _ _).mem_iff.mp hr
    have hrow : r.row ∈ data.drop 1 := by
      obtain ⟨_, h2, _⟩ := validRecordsAux_mem hrv
      exact List.getElem?_mem h2
    obtain ⟨_, _, dmy, hd, _⟩ := validRecords_mem hrv
    exact decide_eq_true (hlen r.row hrow (by simp [hd]))
  constructor
  · unfold list_records_formatted
    by_cases he : (sortRecords (validRecords data)).isEmpty
    · rw [if_pos he]
      rfl
    · rw [if_neg he, if_pos hall]
      rfl
  · intro txt m h
    rcases list_records_ok_cases h with ⟨hm, hs⟩ | hm
    · subst hm
      have hv : validRecords data = [] := by
        have hperm := List.perm_insertionSort
          (fun a b : ValidRec => b.key ≤ a.key) (validRecords data)
        rw [show sortRecords (validRecords data) =
          (validRecords data).insertionSort (fun a b => b.key ≤ a.key) from rfl] at hs
        rw [hs] at hperm
        exact (List.nil_perm).mp hperm
      refine ⟨by simp, by simp, by simp [hv], ?_, ?_⟩
      · intro n h1 h2
        simp at h2
        omega
      · intro ud t n hud hpi _
        unfold select_record_edit_handler
        rw [hpi]
        simp [hud]
    · have hfst : m.map Prod.fst = List.range' 1 m.length := by
        rw [hm, listing_map_fst]
        congr 1
        simp
      refine ⟨hfst, ?_, ?_, ?_, ?_⟩
      · rw [hm]
        refine List.pairwise_map.mpr ?_
        have hpw0 : List.Pairwise (fun a b : ValidRec => b.key ≤ a.key)
            (sortRecords (validRecords data)) :=
          pairwise_desc_insertionSort ValidRec.key (validRecords data)
        have hpw1 : List.Pairwise
            (fun a b : ValidRec => keyOfRef ⟨b.index, b.row⟩ ≤ keyOfRef ⟨a.index, a.row⟩)
            (sortRecords (validRecords data)) :=
          List.Pairwise.imp_of_mem
            (fun ha hb hr => by rw [sorted_keyOfRef ha, sorted_keyOfRef hb]; exact hr) hpw0
        have hpw2 := List.pairwise_map.mp
          ((List.enum_map_snd (sortRecords (validRecords data))).symm ▸ hpw1)
        exact hpw2
      · rw [hm, listing_map_snd]
        exact (List.perm_insertionSort _ _).map recToRef
      · intro n h1 h2
        exact find_int_eq_getElem m 1 n hfst h1 (by omega)
      · intro ud t n hud hpi hnot
        unfold select_record_edit_handler
        rw [hpi]
        have hfind : ud.record_list_edit.find? (fun p => ((p.1 : Int) == n)) = Option.none := by
          rw [hud, List.find?_eq_none]
          intro p hp
          simp only [beq_iff_eq]
          exact hnot p hp
        simp [hfind]

/-- Witness for C4 (amended): the listing succeeds on a concrete sheet whose
date-valid rows all have seven fields. -/
theorem C4_witness : (list_records_formatted dataW).toOption.isSome = true :=
  (C4_listing_and_selection dataW (by decide)).1

/-- C4: the claim as stated quantifies over every sheet contents, but on a
sheet whose only date-valid row has two fields the listing raises
`IndexError` while rendering `row[3]` and produces no mapping at all, so no
position is assigned to that valid record and no selection can reference
it. -/
theorem C4_counterexample :
    list_records_formatted dataShort = Except.error "IndexError" ∧
    (list_records_formatted dataShort).toOption = Option.none := by
  constructor
  · rfl
  · decide

/-- C10: every reference in the listing mapping carries the row's 1-based
raw sheet position (header at row 1, first data row at index 2) no matter
where the row lands after sorting; the pre-sort valid records are in raw
sheet order (strictly increasing indices); and for each date key the
mapping's references with that key are exactly the valid records with that
key in raw sheet order — the sort is stable. -/
theorem C10_raw_indices_and_stability (data : List (List String)) (txt : String)
    (m : List (Nat × RecordRef)) (hok : list_records_formatted data = Except.ok (txt, m)) :
    (∀ p ∈ m, 2 ≤ p.2.index ∧ data[p.2.index - 1]? = some p.2.data) ∧
    List.Pairwise (fun a b => a.index < b.index) (validRecords data) ∧
    (∀ K : Nat, (m.map Prod.snd).filter (fun r => refKey? r == some K) =
      ((validRecords data).map recToRef).filter (fun r => refKey? r == some K)) := by
  have hsnd : (m.map Prod.snd) = (sortRecords (validRecords data)).map recToRef ∨
      (m = [] ∧ validRecords data = []) := by
    rcases list_records_ok_cases hok with ⟨hm, hs⟩ | hm
    · refine Or.inr ⟨hm, ?_⟩
      have hperm := List.perm_insertionSort
        (fun a b : ValidRec => b.key ≤ a.key) (validRecords data)
      rw [show sortRecords (validRecords data) =
        (validRecords data).insertionSort (fun a b => b.key ≤ a.key) from rfl] at hs
      rw [hs] at hperm
      exact (List.nil_perm).mp hperm
    · rw [hm, listing_map_snd]
      exact Or.inl rfl
  refine ⟨?_, validRecordsAux_pairwise _ 2, ?_⟩
  · intro p hp
    have hp2 : p.2 ∈ m.map Prod.snd := List.mem_map_of_mem Prod.snd hp
    rcases hsnd with hsnd | ⟨hm, _⟩
    · rw [hsnd] at hp2
      obtain ⟨r, hr, hre⟩ := List.mem_map.mp hp2
      have hrv : r ∈ validRecords data := (List.perm_insertionSort _ _).mem_iff.mp hr
      obtain ⟨h1, h2, _⟩ := validRecords_mem hrv
      rw [← hre]
      exact ⟨h1, h2⟩
    · rw [hm] at hp
      simp at hp
  · intro K
    rcases hsnd with hsnd | ⟨hm, hv⟩
    · rw [hsnd,
        List.filter_map recToRef (sortRecords (validRecords data)),
        List.filter_map recToRef (validRecords data)]
      congr 1
      have hcongS : ∀ r ∈ sortRecords (validRecords data),
          ((fun a => refKey? a == some K) ∘ recToRef) r = decide (ValidRec.key r = K) := by
        intro r hr
        obtain ⟨_, _, dmy, hd, hk⟩ :=
          validRecords_mem ((List.perm_insertionSort _ _).mem_iff.mp hr)
        by_cases hkk : dateKey dmy = K <;> simp [recToRef, refKey?, hd, hk, hkk]
      have hcongV : ∀ r ∈ validRecords data,
          ((fun a => refKey? a == some K) ∘ recToRef) r = decide (ValidRec.key r = K) := by
        intro r hr
        obtain ⟨_, _, dmy, hd, hk⟩ := validRecords_mem hr
        by_cases hkk : dateKey dmy = K <;> simp [recToRef, refKey?, hd, hk, hkk]
      rw [List.filter_congr hcongS, List.filter_congr hcongV,
        show sortRecords (validRecords data) =
          (validRecords data).insertionSort (fun a b => b.key ≤ a.key) from rfl]
      exact insertionSort_filter_key ValidRec.key (validRecords data) K
    · rw [hm, hv]
      simp

/-- Witness for C10: in the concrete listing `mW`, entry 1 (the most recent
record, raw sheet row 2) carries index 2, and the raw sheet at position 2
(1-based, header at 1) is exactly that row. -/
theorem C10_witness :
    2 ≤ (⟨2, rowB⟩ : RecordRef).index ∧
    dataW[(⟨2, rowB⟩ : RecordRef).index - 1]? = some rowB :=
  (C10_raw_indices_and_stability dataW txtW mW rfl).1 (1, ⟨2, rowB⟩) (by decide)

/-! # C7: the AwaitingDate check -/

theorem digitsVal_pair {a b : Char} (ha : a.isDigit = true) (hb : b.isDigit = true) :
    digitsVal [a, b] = 10 * digitVal a + digitVal b := by
  have ha' : a ≠ '_' := by intro h; rw [h] at ha; exact absurd ha (by decide)
  have hb' : b ≠ '_' := by intro h; rw [h] at hb; exact absurd hb (by decide)
  simp [digitsVal, digitVal, ha', hb']
  ring

theorem digitsVal_quad {e f g h2 : Char} (he : e.isDigit = true) (hf : f.isDigit = true)
    (hg : g.isDigit = true) (hh : h2.isDigit = true) :
    digitsVal [e, f, g, h2] =
      1000 * digitVal e + 100 * digitVal f + 10 * digitVal g + digitVal h2 := by
  have he' : e ≠ '_' := by intro h; rw [h] at he; exact absurd he (by decide)
  have hf' : f ≠ '_' := by intro h; rw [h] at hf; exact absurd hf (by decide)
  have hg' : g ≠ '_' := by intro h; rw [h] at hg; exact absurd hg (by decide)
  have hh' : h2 ≠ '_' := by intro h; rw [h] at hh; exact absurd hh (by decide)
  simp [digitsVal, digitVal, he', hf', hg', hh']
  ring

theorem ddShape_eq {cs : List Char} (h : ddShape cs = true) :
    ∃ a b c d e f g h2, cs = [a, b, '/', c, d, '/', e, f, g, h2] ∧
      a.isDigit = true ∧ b.isDigit = true ∧ c.isDigit = true ∧ d.isDigit = true ∧
      e.isDigit = true ∧ f.isDigit = true ∧ g.isDigit = true ∧ h2.isDigit = true := by
  unfold ddShape at h
  split at h
  · next a b s1 c d s2 e f g h2 =>
    simp only [Bool.and_eq_true, decide_eq_true_eq] at h
    obtain ⟨⟨⟨⟨⟨⟨⟨⟨⟨ha, hb⟩, hs1⟩, hc⟩, hd⟩, hs2⟩, he⟩, hf⟩, hg⟩, hh⟩ := h
    subst hs1
    subst hs2
    exact ⟨a, b, c, d, e, f, g, h2, rfl, ha, hb, hc, hd, he, hf, hg, hh⟩
  · exact absurd h (by simp)

theorem is_valid_date_shape {s : String} {a b c d e f g h2 : Char}
    (hcs : s.toList = [a, b, '/', c, d, '/', e, f, g, h2])
    (ha : a.isDigit = true) (hb : b.isDigit = true) (hc : c.isDigit = true)
    (hd : d.isDigit = true) (he : e.isDigit = true) (hf : f.isDigit = true)
    (hg : g.isDigit = true) (hh : h2.isDigit = true) :
    is_valid_date s = true ↔
      isRealDate (digitsVal [a, b]) (digitsVal [c, d]) (digitsVal [e, f, g, h2]) := by
  unfold is_valid_date strptimeDMY
  rw [hcs]
  simp only [List.takeWhile, List.dropWhile, ha, hb, hc, hd, he, hf, hg, hh,
    (by decide : ('/' : Char).isDigit = false), if_true, if_false, Bool.false_eq_true,
    ite_true, ite_false]
  simp only [List.length_cons, List.length_nil]
  norm_num
  have h31 := daysInMonth_le_31 (digitsVal [c, d]) (digitsVal [e, f, g, h2])
  unfold isRealDate
  omega

theorem is_valid_date_trailing_newline {s : String} {a b c d e f g h2 : Char}
    (hcs : s.toList = [a, b, '/', c, d, '/', e, f, g, h2, '\n'])
    (ha : a.isDigit = true) (hb : b.isDigit = true) (hc : c.isDigit = true)
    (hd : d.isDigit = true) (he : e.isDigit = true) (hf : f.isDigit = true)
    (hg : g.isDigit = true) (hh : h2.isDigit = true) :
    is_valid_date s = false := by
  unfold is_valid_date strptimeDMY
  rw [hcs]
  simp [List.takeWhile, List.dropWhile, ha, hb, hc, hd, he, hf, hg, hh,
    (by decide : ('/' : Char).isDigit = false), (by decide : ('\n' : Char).isDigit = false)]

/-- C7: the `AwaitingDate` check of `ask_date_handler` accepts a string
exactly when it has the strict two-digit/two-digit/four-digit `DD/MM/YYYY`
shape and denotes a real Gregorian calendar date; and whenever it rejects —
whether the shape or the calendar check failed — the handler replies with
the one fixed error message and stays in the `ASK_DATE` state. -/
theorem C7_date_validation (s : String) (ud : UserData) :
    ((pyDateRegex s && is_valid_date s) = true ↔ specAcceptsDate s) ∧
    ((pyDateRegex s && is_valid_date s) = false →
      ask_date_handler ud s =
        ⟨PyResult.ok ConvState.ASK_DATE ud, [], [INVALID_DATE_MSG]⟩) := by
  constructor
  · constructor
    · intro h
      obtain ⟨h1, h2⟩ := Bool.and_eq_true_iff.mp h
      unfold pyDateRegex at h1
      rcases Bool.or_eq_true_iff.mp h1 with hsh | hnl
      · obtain ⟨a, b, c, d, e, f, g, h2c, hcs, ha, hb, hc, hd, he, hf, hg, hh⟩ :=
          ddShape_eq hsh
        unfold specAcceptsDate
        rw [hcs]
        have hreal := (is_valid_date_shape hcs ha hb hc hd he hf hg hh).mp h2
        rw [digitsVal_pair ha hb, digitsVal_pair hc hd, digitsVal_quad he hf hg hh] at hreal
        exact ⟨rfl, rfl, ha, hb, hc, hd, he, hf, hg, hh, hreal⟩
      · exfalso
        split at hnl
        · next rest heq =>
          obtain ⟨a, b, c, d, e, f, g, h2c, hrr, ha, hb, hc, hd, he, hf, hg, hh⟩ :=
            ddShape_eq hnl
          have hcs : s.toList = [a, b, '/', c, d, '/', e, f, g, h2c, '\n'] := by
            have h3 : s.toList.reverse.reverse = ('\n' :: rest).reverse := by rw [heq]
            rw [List.reverse_reverse, List.reverse_cons, hrr] at h3
            simpa using h3
          rw [is_valid_date_trailing_newline hcs ha hb hc hd he hf hg hh] at h2
          exact absurd h2 (by simp)
        · exact absurd hnl (by simp)
    · intro h
      unfold specAcceptsDate at h
      split at h
      · next a b s1 c d s2 e f g h2c heq =>
        obtain ⟨hs1, hs2, ha, hb, hc, hd, he, hf, hg, hh, hreal⟩ := h
        subst hs1
        subst hs2
        rw [Bool.and_eq_true]
        constructor
        · unfold pyDateRegex
          rw [heq]
          have hdd : ddShape [a, b, '/', c, d, '/', e, f, g, h2c] = true := by
            simp [ddShape, ha, hb, hc, hd, he, hf, hg, hh]
          rw [hdd, Bool.true_or]
        · rw [← digitsVal_pair ha hb, ← digitsVal_pair hc hd,
            ← digitsVal_quad he hf hg hh] at hreal
          exact (is_valid_date_shape heq ha hb hc hd he hf hg hh).mpr hreal
      · exact absurd h (by simp)
  · intro h
    rw [Bool.and_eq_false_iff] at h
    rcases h with h | h <;> simp [ask_date_handler, h]


/-- Witness for C7: "31/02/2024" matches the strict shape but is not a real
date; the handler rejects it with the fixed message and stays in
`ASK_DATE`. -/
theorem C7_witness :
    ((pyDateRegex "31/02/2024" && is_valid_date "31/02/2024") = false) ∧
    ask_date_handler emptyUD "31/02/2024" =
      ⟨PyResult.ok ConvState.ASK_DATE emptyUD, [], [INVALID_DATE_MSG]⟩ :=
  ⟨by decide, (C7_date_validation "31/02/2024" emptyUD).2 (by decide)⟩

/-! # C6: ranges of appended scores -/

/-- C6: the claim quantifies over arbitrary button callback payloads. The
score handlers accept any payload that parses as an int (`int("7")`
succeeds) and the vibe handler stores any payload unchecked, so a crafted
callback sequence drives the Create flow to append food = 7 ∉ {1..5} and
vibe = "meh". -/
theorem C6_counterexample :
    (run cfgOk (ConvState.END, emptyUD) adversarialInputs).2 =
      [StoreOp.append [CellValue.str "Cafe", CellValue.str "15/06/2024", CellValue.int 7,
        CellValue.int 1, CellValue.int 1, CellValue.int 1, CellValue.str "meh"]] ∧
    ¬ appendScoresOk (StoreOp.append [CellValue.str "Cafe", CellValue.str "15/06/2024",
        CellValue.int 7, CellValue.int 1, CellValue.int 1, CellValue.int 1,
        CellValue.str "meh"]) := by
  constructor
  · decide
  · intro hok
    obtain ⟨⟨n, hn, hge, hle⟩, _⟩ := hok
    obtain rfl : (7 : Int) = n := CellValue.int.inj hn
    omega

theorem pendingVals_scores_ok {dd : VibeData} (hf : scoreSome dd.food)
    (hp : scoreSome dd.place) (hs : scoreSome dd.spaciousness) (hc : scoreSome dd.convo)
    (hv : vibeSome dd.vibe) : appendScoresOk (StoreOp.append (pendingVals dd)) := by
  obtain ⟨n1, hn1, h1⟩ := hf
  obtain ⟨n2, hn2, h2⟩ := hp
  obtain ⟨n3, hn3, h3⟩ := hs
  obtain ⟨n4, hn4, h4⟩ := hc
  refine ⟨⟨n1, ?_, h1⟩, ⟨n2, ?_, h2⟩, ⟨n3, ?_, h3⟩, ⟨n4, ?_, h4⟩, ?_⟩ <;>
    simp [pendingVals, cellI, cellS, hn1, hn2, hn3, hn4, List.getD]
  rcases hv with h | h <;> simp [h, vibeCellOk]

theorem confirm_handler_shape (cfg : StoreCfg) (ud : UserData) (t : String)
    (hInvC : udInv ConvState.CONFIRM ud) :
    ((confirm_handler cfg ud t).res = PyResult.ok ConvState.END emptyUD ∨
     (confirm_handler cfg ud t).res = PyResult.exn "Failed to append row" ud) ∧
    ∀ op ∈ (confirm_handler cfg ud t).ops, appendScoresOk op := by
  obtain ⟨dd, hvd, hf, hp, hs, hc, hv⟩ := hInvC
  unfold confirm_handler
  by_cases hyes : pyLower t = "yes" <;> simp only [hyes, if_true, if_false, ite_true, ite_false]
  · by_cases hok : cfg.appendOk = true
    · simp only [hok, ite_true]
      refine ⟨Or.inl (by simp), ?_⟩
      intro op hop
      simp only [List.mem_singleton] at hop
      subst hop
      rw [hvd]
      exact pendingVals_scores_ok hf hp hs hc hv
    · rw [Bool.not_eq_true] at hok
      simp only [hok, Bool.false_eq_true, ite_false]
      refine ⟨Or.inr (by simp), ?_⟩
      intro op hop
      simp only [List.mem_singleton] at hop
      subst hop
      rw [hvd]
      exact pendingVals_scores_ok hf hp hs hc hv
  · simp

theorem confirm_edit_handler_shape (cfg : StoreCfg) (ud : UserData) (t : String) :
    ((confirm_edit_handler cfg ud t).res = PyResult.ok ConvState.END emptyUD ∨
     (confirm_edit_handler cfg ud t).res = PyResult.exn "Failed to update cell" ud) ∧
    ∀ op ∈ (confirm_edit_handler cfg ud t).ops, appendScoresOk op := by
  unfold confirm_edit_handler
  by_cases hyes : pyLower t = "yes" <;> simp only [hyes, if_true, if_false, ite_true, ite_false]
  · rcases ud.field_to_edit with _ | f <;> rcases ud.selected_record_edit with _ | r <;>
      simp only []
    · simp [appendScoresOk]
    · simp [appendScoresOk]
    · simp [appendScoresOk]
    · rcases colMap? f with _ | c <;> simp only []
      · simp [appendScoresOk]
      · by_cases hu : cfg.updateOk = true
        · simp [hu, appendScoresOk]
        · rw [Bool.not_eq_true] at hu
          simp [hu, appendScoresOk]
  · simp [appendScoresOk]

theorem confirm_delete_handler_shape (cfg : StoreCfg) (ud : UserData) (t : String) :
    ((confirm_delete_handler cfg ud t).res = PyResult.ok ConvState.END emptyUD ∨
     (confirm_delete_handler cfg ud t).res = PyResult.exn "Failed to delete row" ud) ∧
    ∀ op ∈ (confirm_delete_handler cfg ud t).ops, appendScoresOk op := by
  unfold confirm_delete_handler
  by_cases hyes : pyLower t = "yes" <;> simp only [hyes, if_true, if_false, ite_true, ite_false]
  · rcases ud.selected_record_delete with _ | r <;> simp only []
    · simp [appendScoresOk]
    · by_cases hcl : cfg.clearOk = true
      · simp [hcl, appendScoresOk]
      · rw [Bool.not_eq_true] at hcl
        simp [hcl, appendScoresOk]
  · simp [appendScoresOk]

theorem button_handler_cases (cfg : StoreCfg) (ud : UserData) (d : String) :
    (button_handler cfg ud d).ops = [] ∧
    ∀ st ud2, (button_handler cfg ud d).res = PyResult.ok st ud2 →
      st = ConvState.ASK_NAME ∨ st = ConvState.SELECT_RECORD_EDIT ∨
      st = ConvState.SELECT_RECORD_DELETE ∨ st = ConvState.END := by
  unfold button_handler
  split_ifs <;> try simp
  all_goals (
    rcases list_records_formatted cfg.sheet with e | ⟨txt, mm⟩ <;> simp
    split_ifs <;> simp)

theorem scoreSome_lit {k : Int} (h1 : 1 ≤ k) (h2 : k ≤ 5) : scoreSome (some k) :=
  ⟨k, rfl, h1, h2⟩

/-- One dispatched update preserves the Create-flow invariant and only ever
appends rows whose scores are in 1..5 and whose label is good/bad, provided
the consumed payload is one the bot's buttons can produce. -/
theorem runStep_preserves (cfg : StoreCfg) (s : ConvState × UserData) (i : Input)
    (hInv : udInv s.1 s.2) (hBtn : buttonsOk s.1 i = true) :
    udInv (runStep cfg s i).1.1 (runStep cfg s i).1.2 ∧
    ∀ op ∈ (runStep cfg s i).2, appendScoresOk op := by
  obtain ⟨st, ud⟩ := s
  simp only [] at hInv hBtn
  cases st <;> cases i
  case END.cmd c =>
    by_cases hc : c = "start" <;>
      refine ⟨?_, fun op hop => absurd hop ?_⟩ <;>
      simp [runStep, step, start_handler, hc, udInv]
  case END.msg t =>
    exact ⟨trivial, fun op hop => absurd hop (by simp [runStep, step])⟩
  case END.callback d =>
    obtain ⟨hops, hst⟩ := button_handler_cases cfg ud d
    rcases hres : (button_handler cfg ud d).res with ⟨st2, ud2⟩ | ⟨msg, ud2⟩
    · refine ⟨?_, fun op hop => absurd hop ?_⟩
      · have h4 := hst st2 ud2 hres
        simp only [runStep, step, hres]
        rcases h4 with rfl | rfl | rfl | rfl <;> trivial
      · simp [runStep, step, hres, hops]
    · refine ⟨?_, fun op hop => absurd hop ?_⟩
      · simp only [runStep, step, hres]
        trivial
      · simp [runStep, step, hres, hops]
  case ASK_PASSWORD.msg t =>
    by_cases ht : t = "vibes" <;>
      refine ⟨?_, fun op hop => absurd hop ?_⟩ <;>
      simp [runStep, step, ask_password_handler, ht, udInv]
  case ASK_PASSWORD.cmd c =>
    by_cases hc : c = "cancel" <;>
      refine ⟨?_, fun op hop => absurd hop ?_⟩ <;>
      simp [runStep, step, cancel_handler, hc, udInv]
  case ASK_PASSWORD.callback d =>
    exact ⟨trivial, fun op hop => absurd hop (by simp [runStep, step])⟩
  case ASK_NAME.msg t =>
    exact ⟨trivial, fun op hop => absurd hop (by simp [runStep, step, ask_name_handler])⟩
  case ASK_NAME.cmd c =>
    by_cases hc : c = "cancel" <;>
      refine ⟨?_, fun op hop => absurd hop ?_⟩ <;>
      simp [runStep, step, cancel_handler, hc, udInv]
  case ASK_NAME.callback d =>
    exact ⟨trivial, fun op hop => absurd hop (by simp [runStep, step])⟩
  case ASK_DATE.msg t =>
    rcases hvd : ud.vibe_data with _ | dd <;>
      refine ⟨?_, fun op hop => absurd hop ?_⟩ <;>
      simp only [runStep, step, ask_date_handler, hvd] <;>
      split_ifs <;> simp [udInv]
  case ASK_DATE.cmd c =>
    by_cases hc : c = "cancel" <;>
      refine ⟨?_, fun op hop => absurd hop ?_⟩ <;>
      simp [runStep, step, cancel_handler, hc, udInv]
  case ASK_DATE.callback d =>
    exact ⟨trivial, fun op hop => absurd hop (by simp [runStep, step])⟩
  case ASK_FOOD.msg t =>
    exact ⟨trivial, fun op hop => absurd hop (by simp [runStep, step])⟩
  case ASK_FOOD.cmd c =>
    by_cases hc : c = "cancel" <;>
      refine ⟨?_, fun op hop => absurd hop ?_⟩ <;>
      simp [runStep, step, cancel_handler, hc, udInv]
  case ASK_FOOD.callback d =>
    have hd5 : d = "1" ∨ d = "2" ∨ d = "3" ∨ d = "4" ∨ d = "5" := by
      simp only [buttonsOk, Bool.or_eq_true, beq_iff_eq] at hBtn
      tauto
    rcases hvd : ud.vibe_data with _ | dd <;>
      rcases hd5 with rfl | rfl | rfl | rfl | rfl <;>
      refine ⟨?_, fun op hop => absurd hop ?_⟩ <;>
      simp [runStep, step, ask_food_handler, hvd, udInv,
        (by decide : pyInt? "1" = some 1), (by decide : pyInt? "2" = some 2),
        (by decide : pyInt? "3" = some 3), (by decide : pyInt? "4" = some 4),
        (by decide : pyInt? "5" = some 5),
        (scoreSome_lit (by norm_num) (by norm_num) : scoreSome (some (1 : Int))),
        (scoreSome_lit (by norm_num) (by norm_num) : scoreSome (some (2 : Int))),
        (scoreSome_lit (by norm_num) (by norm_num) : scoreSome (some (3 : Int))),
        (scoreSome_lit (by norm_num) (by norm_num) : scoreSome (some (4 : Int))),
        (scoreSome_lit (by norm_num) (by norm_num) : scoreSome (some (5 : Int)))]
  case ASK_PLACE.msg t =>
    exact ⟨hInv, fun op hop => absurd hop (by simp [runStep, step])⟩
  case ASK_PLACE.cmd c =>
    by_cases hc : c = "cancel"
    · refine ⟨?_, fun op hop => absurd hop ?_⟩ <;>
        simp [runStep, step, cancel_handler, hc, udInv]
    · exact ⟨by simpa [runStep, step, hc] using hInv,
        fun op hop => absurd hop (by simp [runStep, step, hc])⟩
  case ASK_PLACE.callback d =>
    obtain ⟨dd, hvd, hfood⟩ := hInv
    have hd5 : d = "1" ∨ d = "2" ∨ d = "3" ∨ d = "4" ∨ d = "5" := by
      simp only [buttonsOk, Bool.or_eq_true, beq_iff_eq] at hBtn
      tauto
    rcases hd5 with rfl | rfl | rfl | rfl | rfl <;>
      refine ⟨?_, fun op hop => absurd hop ?_⟩ <;>
      simp [runStep, step, ask_place_handler, hvd, udInv, hfood,
        (by decide : pyInt? "1" = some 1), (by decide : pyInt? "2" = some 2),
        (by decide : pyInt? "3" = some 3), (by decide : pyInt? "4" = some 4),
        (by decide : pyInt? "5" = some 5),
        (scoreSome_lit (by norm_num) (by norm_num) : scoreSome (some (1 : Int))),
        (scoreSome_lit (by norm_num) (by norm_num) : scoreSome (some (2 : Int))),
        (scoreSome_lit (by norm_num) (by norm_num) : scoreSome (some (3 : Int))),
        (scoreSome_lit (by norm_num) (by norm_num) : scoreSome (some (4 : Int))),
        (scoreSome_lit (by norm_num) (by norm_num) : scoreSome (some (5 : Int)))]
  case ASK_SPACIOUSNESS.msg t =>
    exact ⟨hInv, fun op hop => absurd hop (by simp [runStep, step])⟩
  case ASK_SPACIOUSNESS.cmd c =>
    by_cases hc : c = "cancel"
    · refine ⟨?_, fun op hop => absurd hop ?_⟩ <;>
        simp [runStep, step, cancel_handler, hc, udInv]
    · exact ⟨by simpa [runStep, step, hc] using hInv,
        fun op hop => absurd hop (by simp [runStep, step, hc])⟩
  case ASK_SPACIOUSNESS.callback d =>
    obtain ⟨dd, hvd, hfood, hplace⟩ := hInv
    have hd5 : d = "1" ∨ d = "2" ∨ d = "3" ∨ d = "4" ∨ d = "5" := by
      simp only [buttonsOk, Bool.or_eq_true, beq_iff_eq] at hBtn
      tauto
    rcases hd5 with rfl | rfl | rfl | rfl | rfl <;>
      refine ⟨?_, fun op hop => absurd hop ?_⟩ <;>
      simp [runStep, step, ask_spaciousness_handler, hvd, udInv, hfood, hplace,
        (by decide : pyInt? "1" = some 1), (by decide : pyInt? "2" = some 2),
        (by decide : pyInt? "3" = some 3), (by decide : pyInt? "4" = some 4),
        (by decide : pyInt? "5" = some 5),
        (scoreSome_lit (by norm_num) (by norm_num) : scoreSome (some (1 : Int))),
        (scoreSome_lit (by norm_num) (by norm_num) : scoreSome (some (2 : Int))),
        (scoreSome_lit (by norm_num) (by norm_num) : scoreSome (some (3 : Int))),
        (scoreSome_lit (by norm_num) (by norm_num) : scoreSome (some (4 : Int))),
        (scoreSome_lit (by norm_num) (by norm_num) : scoreSome (some (5 : Int)))]
  case ASK_CONVO.msg t =>
    exact ⟨hInv, fun op hop => absurd hop (by simp [runStep, step])⟩
  case ASK_CONVO.cmd c =>
    by_cases hc : c = "cancel"
    · refine ⟨?_, fun op hop => absurd hop ?_⟩ <;>
        simp [runStep, step, cancel_handler, hc, udInv]
    · exact ⟨by simpa [runStep, step, hc] using hInv,
        fun op hop => absurd hop (by simp [runStep, step, hc])⟩
  case ASK_CONVO.callback d =>
    obtain ⟨dd, hvd, hfood, hplace, hsp⟩ := hInv
    have hd5 : d = "1" ∨ d = "2" ∨ d = "3" ∨ d = "4" ∨ d = "5" := by
      simp only [buttonsOk, Bool.or_eq_true, beq_iff_eq] at hBtn
      tauto
    rcases hd5 with rfl | rfl | rfl | rfl | rfl <;>
      refine ⟨?_, fun op hop => absurd hop ?_⟩ <;>
      simp [runStep, step, ask_convo_handler, hvd, udInv, hfood, hplace, hsp,
        (by decide : pyInt? "1" = some 1), (by decide : pyInt? "2" = some 2),
        (by decide : pyInt? "3" = some 3), (by decide : pyInt? "4" = some 4),
        (by decide : pyInt? "5" = some 5),
        (scoreSome_lit (by norm_num) (by norm_num) : scoreSome (some (1 : Int))),
        (scoreSome_lit (by norm_num) (by norm_num) : scoreSome (some (2 : Int))),
        (scoreSome_lit (by norm_num) (by norm_num) : scoreSome (some (3 : Int))),
        (scoreSome_lit (by norm_num) (by norm_num) : scoreSome (some (4 : Int))),
        (scoreSome_lit (by norm_num) (by norm_num) : scoreSome (some (5 : Int)))]
  case ASK_VIBE.msg t =>
    exact ⟨hInv, fun op hop => absurd hop (by simp [runStep, step])⟩
  case ASK_VIBE.cmd c =>
    by_cases hc : c = "cancel"
    · refine ⟨?_, fun op hop => absurd hop ?_⟩ <;>
        simp [runStep, step, cancel_handler, hc, udInv]
    · exact ⟨by simpa [runStep, step, hc] using hInv,
        fun op hop => absurd hop (by simp [runStep, step, hc])⟩
  case ASK_VIBE.callback d =>
    obtain ⟨dd, hvd, hfood, hplace, hsp, hconvo⟩ := hInv
    have hd2 : d = "good" ∨ d = "bad" := by
      simpa [buttonsOk] using hBtn
    rcases hd2 with rfl | rfl <;>
      refine ⟨?_, fun op hop => absurd hop ?_⟩ <;>
      simp [runStep, step, ask_vibe_handler, hvd, udInv, vibeSome,
        hfood, hplace, hsp, hconvo]
  case CONFIRM.msg t =>
    obtain ⟨hres, hops⟩ := confirm_handler_shape cfg ud t hInv
    rcases hres with h | h
    · refine ⟨?_, ?_⟩
      · simp only [runStep, step, h]
        trivial
      · intro op hop
        simp only [runStep, step, h] at hop
        exact hops op hop
    · refine ⟨?_, ?_⟩
      · simp only [runStep, step, h]
        exact hInv
      · intro op hop
        simp only [runStep, step, h] at hop
        exact hops op hop
  case CONFIRM.cmd c =>
    by_cases hc : c = "cancel"
    · refine ⟨?_, fun op hop => absurd hop ?_⟩ <;>
        simp [runStep, step, cancel_handler, hc, udInv]
    · exact ⟨by simpa [runStep, step, hc] using hInv,
        fun op hop => absurd hop (by simp [runStep, step, hc])⟩
  case CONFIRM.callback d =>
    exact ⟨hInv, fun op hop => absurd hop (by simp [runStep, step])⟩
  case SELECT_RECORD_EDIT.msg t =>
    refine ⟨?_, fun op hop => absurd hop ?_⟩ <;>
    · rcases hpi : pyInt? (pyStrip t) with _ | n
      · simp [runStep, step, select_record_edit_handler, hpi, udInv]
      · rcases hfd : ud.record_list_edit.find? (fun p => ((p.1 : Int) == n)) with _ | entry
        · simp [runStep, step, select_record_edit_handler, hpi, hfd, udInv]
        · by_cases hlen : 7 ≤ entry.2.data.length <;>
            simp [runStep, step, select_record_edit_handler, hpi, hfd, hlen, udInv]
  case SELECT_RECORD_EDIT.cmd c =>
    by_cases hc : c = "cancel" <;>
      refine ⟨?_, fun op hop => absurd hop ?_⟩ <;>
      simp [runStep, step, cancel_handler, hc, udInv]
  case SELECT_RECORD_EDIT.callback d =>
    exact ⟨trivial, fun op hop => absurd hop (by simp [runStep, step])⟩
  case SHOW_CURRENT_DATA.msg t =>
    refine ⟨?_, fun op hop => absurd hop ?_⟩ <;>
    · simp only [runStep, step, show_current_data_handler]
      split_ifs <;> simp [udInv]
  case SHOW_CURRENT_DATA.cmd c =>
    by_cases hc : c = "cancel" <;>
      refine ⟨?_, fun op hop => absurd hop ?_⟩ <;>
      simp [runStep, step, cancel_handler, hc, udInv]
  case SHOW_CURRENT_DATA.callback d =>
    exact ⟨trivial, fun op hop => absurd hop (by simp [runStep, step])⟩
  case ASK_NEW_VALUE.msg t =>
    exact ⟨trivial, fun op hop => absurd hop (by simp [runStep, step])⟩
  case ASK_NEW_VALUE.cmd c =>
    by_cases hc : c = "cancel" <;>
      refine ⟨?_, fun op hop => absurd hop ?_⟩ <;>
      simp [runStep, step, cancel_handler, hc, udInv]
  case ASK_NEW_VALUE.callback d =>
    exact ⟨trivial, fun op hop => absurd hop (by simp [runStep, step, ask_new_value_handler])⟩
  case CONFIRM_EDIT.msg t =>
    obtain ⟨hres, hops⟩ := confirm_edit_handler_shape cfg ud t
    rcases hres with h | h <;>
      exact ⟨by simp only [runStep, step, h]; trivial,
        fun op hop => hops op (by simpa only [runStep, step, h] using hop)⟩
  case CONFIRM_EDIT.cmd c =>
    by_cases hc : c = "cancel" <;>
      refine ⟨?_, fun op hop => absurd hop ?_⟩ <;>
      simp [runStep, step, cancel_handler, hc, udInv]
  case CONFIRM_EDIT.callback d =>
    exact ⟨trivial, fun op hop => absurd hop (by simp [runStep, step])⟩
  case SELECT_RECORD_DELETE.msg t =>
    refine ⟨?_, fun op hop => absurd hop ?_⟩ <;>
    · rcases hpi : pyInt? (pyStrip t) with _ | n
      · simp [runStep, step, select_record_delete_handler, hpi, udInv]
      · rcases hfd : ud.record_list_delete.find? (fun p => ((p.1 : Int) == n)) with _ | entry
        · simp [runStep, step, select_record_delete_handler, hpi, hfd, udInv]
        · by_cases hlen : 7 ≤ entry.2.data.length <;>
            simp [runStep, step, select_record_delete_handler, hpi, hfd, hlen, udInv]
  case SELECT_RECORD_DELETE.cmd c =>
    by_cases hc : c = "cancel" <;>
      refine ⟨?_, fun op hop => absurd hop ?_⟩ <;>
      simp [runStep, step, cancel_handler, hc, udInv]
  case SELECT_RECORD_DELETE.callback d =>
    exact ⟨trivial, fun op hop => absurd hop (by simp [runStep, step])⟩
  case CONFIRM_DELETE.msg t =>
    obtain ⟨hres, hops⟩ := confirm_delete_handler_shape cfg ud t
    rcases hres with h | h <;>
      exact ⟨by simp only [runStep, step, h]; trivial,
        fun op hop => hops op (by simpa only [runStep, step, h] using hop)⟩
  case CONFIRM_DELETE.cmd c =>
    by_cases hc : c = "cancel" <;>
      refine ⟨?_, fun op hop => absurd hop ?_⟩ <;>
      simp [runStep, step, cancel_handler, hc, udInv]
  case CONFIRM_DELETE.callback d =>
    exact ⟨trivial, fun op hop => absurd hop (by simp [runStep, step])⟩

/-- Any run whose consumed payloads are button-shaped only appends rows with
scores in 1..5 and a good/bad label. -/
theorem run_appends_ok (cfg : StoreCfg) :
    ∀ (inputs : List Input) (s : ConvState × UserData),
      udInv s.1 s.2 → traceOk cfg s inputs = true →
      ∀ op ∈ (run cfg s inputs).2, appendScoresOk op := by
  intro inputs
  induction inputs with
  | nil => intro s _ _ op hop; simp [run] at hop
  | cons i rest ih =>
    intro s hInv htr
    rw [traceOk] at htr
    obtain ⟨hb, htr2⟩ := Bool.and_eq_true_iff.mp htr
    intro op hop
    simp only [run] at hop
    rcases List.mem_append.mp hop with h | h
    · exact (runStep_preserves cfg s i hInv hb).2 op h
    · exact ih (runStep cfg s i).1 (runStep_preserves cfg s i hInv hb).1 htr2 op h

/-- C6 (amended): for every input sequence in which each callback payload
consumed at a score state is one of the digits "1".."5" the bot's score
buttons emit and each payload consumed at the vibe state is "good"/"bad",
every row the Create flow appends has its four scores in {1,…,5} and its
vibe label in {"good","bad"}. (Arbitrary payloads violate this — see the
counterexample.) -/
theorem C6_buttons_give_valid_records (cfg : StoreCfg) (inputs : List Input)
    (ht : traceOk cfg (ConvState.END, emptyUD) inputs = true) :
    ∀ op ∈ (run cfg (ConvState.END, emptyUD) inputs).2, appendScoresOk op :=
  run_appends_ok cfg inputs (ConvState.END, emptyUD) trivial ht

/-- Witness for C6 (amended): a complete Create run over button payloads
appends a row, and that row satisfies the range/label property. -/
theorem C6_witness :
    appendScoresOk (StoreOp.append [CellValue.str "Cafe", CellValue.str "15/06/2024",
      CellValue.int 4, CellValue.int 5, CellValue.int 3, CellValue.int 2,
      CellValue.str "good"]) :=
  C6_buttons_give_valid_records cfgOk buttonInputs (by decide)
    (StoreOp.append [CellValue.str "Cafe", CellValue.str "15/06/2024",
      CellValue.int 4, CellValue.int 5, CellValue.int 3, CellValue.int 2,
      CellValue.str "good"]) (by decide)

end VibesBot
